import Mathlib

/-!
Shallow embedding of the outlier-detection and bucket-aggregation statistics
engine of the `video-downscale-tool` repository
(`src/metricas-videos/app/servicios/metricas_service.py`,
`src/metricas-videos/app/dominio/dtos.py`,
`src/metricas-videos/app-analizar/evaluador.py`), together with theorems
settling the specification claims about it.

Modelling conventions:
* Python `float` is modelled by `ℚ` (the claims concern order comparisons,
  exact thresholds and branch structure, none of which depend on binary
  floating-point rounding); Python `int` by `Int`.
* Python `Optional[T]` is `Option T`; a Python `None` result is `none`.
* Python string literals (provenance tags, context flags, duration
  categories) are Lean `String`s with the exact same spelling as the source.
* Python `round` rounds half to even; `pyRound` reproduces that on `ℚ`.
* `pathlib.Path` and `datetime` carry no behaviour used by the engine and are
  modelled as `String`.
-/

set_option maxHeartbeats 1000000

namespace MetricasVideos

/-- Mirrors `VideoArchivoDTO` from `app/dominio/dtos.py`. -/
structure VideoArchivoDTO where
  ruta : String
  size_bytes : Int
  fecha_modificacion : String
  deriving Repr, DecidableEq

/-- Mirrors `VideoStreamDTO` from `app/dominio/dtos.py`. -/
structure VideoStreamDTO where
  duracion_seg : ℚ
  contenedor : String
  codec : String
  bitrate_bps : Option Int
  bitrate_container_bps : Option Int
  width : Int
  height : Int
  fps : ℚ
  pix_fmt : String
  profile : Option String
  level : Option String
  color_space : Option String
  color_transfer : Option String
  color_primaries : Option String
  es_hdr : Bool
  es_vfr : Bool
  deriving Repr, DecidableEq

/-- Mirrors `AudioStreamDTO` from `app/dominio/dtos.py`. -/
structure AudioStreamDTO where
  codec : String
  bitrate_bps : Option Int
  channels : Int
  sample_rate : Int
  layout : Option String
  deriving Repr, DecidableEq

/-- Mirrors `VideoAnaliticaDTO` from `app/dominio/dtos.py`.  Context flags and
the duration category are the literal strings of the Python `Literal` types
(`FlagContexto`, `DuracionCategoria`). -/
structure VideoAnaliticaDTO where
  archivo : VideoArchivoDTO
  stream_video : VideoStreamDTO
  streams_audio : Option (List AudioStreamDTO) := none
  mb_por_minuto : Option ℚ := none
  bitrate_total_estimado : Option Int := none
  bits_por_pixel_frame : Option ℚ := none
  flags_contexto : Option (List String) := none
  kbps_total : Option Int := none
  kbps_video : Option Int := none
  audio_share_pct : Option ℚ := none
  duracion_categoria : Option String := none
  bucket_resolucion_fps : Option String := none
  ratio_vs_promedio_bucket : Option ℚ := none
  deriving Repr, DecidableEq

/-- Mirrors `BucketResumenDTO` from `app/dominio/dtos.py`. -/
structure BucketResumenDTO where
  bucket_id : String
  promedio_mb_min : Option ℚ
  promedio_bitrate : Option Int
  videos_outliers : List String := []
  total_videos : Int := 0
  desviacion_std_mb_min : Option ℚ := none
  mediana_mb_min : Option ℚ := none
  mad_mb_min : Option ℚ := none
  deriving Repr, DecidableEq

/-! Module-level constants of `metricas_service.py`. -/

def BYTES_POR_MB : Int := 1024 * 1024

def SEGUNDOS_POR_MINUTO : Int := 60

def BITS_POR_BYTE : Int := 8

def RESOLUCIONES_NORMALIZADAS : List Int := [144, 240, 360, 480, 720, 1080, 1440, 2160, 4320]

def FPS_NORMALIZADOS : List Int := [24, 25, 30, 50, 60]

def MAD_FACTOR : ℚ := 1.4826

def MIN_BUCKET_CONFIABLE : Int := 5

/-- Python 3 `round(x)`: nearest integer, ties resolved to the even one. -/
def pyRound (x : ℚ) : Int :=
  let piso := ⌊x⌋
  let resto := x - piso
  if resto < 1/2 then piso
  else if 1/2 < resto then piso + 1
  else if piso % 2 = 0 then piso else piso + 1

/-- Python `round(x, 5)`: nearest multiple of `10⁻⁵` (ties to even). -/
def pyRound5 (x : ℚ) : ℚ :=
  (pyRound (x * 100000) : ℚ) / 100000

/-- Python `abs` on a float, modelled on `ℚ`.  (Extensionally this is `|x|`,
see `pyAbs_eq_abs`; it is spelled out so that terms reduce.) -/
def pyAbs (x : ℚ) : ℚ := if x < 0 then -x else x

/-- Python `str.upper()` for the codec strings.  (`String.toUpper` itself is
defined through `String.mapAux`, which does not reduce; mapping over the
character list is the same function.) -/
def pyUpper (s : String) : String := String.mk (s.data.map Char.toUpper)

/-- Mirrors `calcular_mb_por_minuto`.  In the source `duracion_seg` is an
`Optional[float]` parameter. -/
def calcular_mb_por_minuto (size_bytes : Int) (duracion_seg : Option ℚ) : Option ℚ :=
  if size_bytes ≤ 0 then none
  else
    match duracion_seg with
    | none => none
    | some d =>
      if d ≤ 0 then none
      else
        let minutos := d / (SEGUNDOS_POR_MINUTO : ℚ)
        if minutos ≤ 0 then none
        else
          let megabytes := (size_bytes : ℚ) / (BYTES_POR_MB : ℚ)
          some (megabytes / minutos)

/-- Python truthiness test `x and x > 0` on an `Optional[int]`: `None` and `0`
are falsy, so the whole test holds exactly for `some v` with `0 < v`. -/
def bitratePositivo (o : Option Int) : Option Int :=
  match o with
  | none => none
  | some v => if 0 < v then some v else none

/-- The `componentes` list built by `calcular_bitrate_total_estimado`: the
video bitrate when present and positive, then each present, positive audio
stream bitrate, in stream order (`if streams_audio:` skips both `None` and
the empty list, which coincides with filtering nothing). -/
def componentesBitrate (bitrate_video_bps : Option Int)
    (streams_audio : Option (List AudioStreamDTO)) : List Int :=
  (bitratePositivo bitrate_video_bps).toList ++
    (match streams_audio with
     | none => []
     | some streams => streams.filterMap (fun s => bitratePositivo s.bitrate_bps))

/-- Mirrors `calcular_bitrate_total_estimado`.  The second component is the
`BitrateFuente` literal (`"format" | "componentes" | "tamano" | "none"`).
`int(x)` truncates toward zero; in the `"tamano"` branch the operand is
positive, so it equals the floor. -/
def calcular_bitrate_total_estimado
    (bitrate_container_bps : Option Int)
    (bitrate_video_bps : Option Int)
    (streams_audio : Option (List AudioStreamDTO))
    (size_bytes : Int)
    (duracion_seg : Option ℚ) : Option Int × String :=
  match bitratePositivo bitrate_container_bps with
  | some c => (some c, "format")
  | none =>
    let componentes : List Int := componentesBitrate bitrate_video_bps streams_audio
    if componentes ≠ [] then (some componentes.sum, "componentes")
    else
      match duracion_seg with
      | some d =>
        if 0 < size_bytes ∧ 0 < d then (some ⌊(size_bytes * BITS_POR_BYTE : ℚ) / d⌋, "tamano")
        else (none, "none")
      | none => (none, "none")

/-- Mirrors `_calcular_duracion_categoria`. -/
def calcular_duracion_categoria (duracion_seg : ℚ) : String :=
  if duracion_seg < 10 then "MUY CORTO"
  else if duracion_seg ≤ 120 then "CORTO"
  else if duracion_seg ≤ 300 then "MEDIO"
  else "LARGO"

/-- Flag-list update performed by `_agregar_flag` on the `flags_contexto`
field: start a fresh list when the field is `None`, otherwise append the flag
unless it is already present. -/
def addFlag (flags : Option (List String)) (flag : String) : Option (List String) :=
  match flags with
  | none => some [flag]
  | some fs => if flag ∈ fs then some fs else some (fs ++ [flag])

/-- Mirrors `_agregar_flag`. -/
def agregar_flag (video : VideoAnaliticaDTO) (flag : String) : VideoAnaliticaDTO :=
  { video with flags_contexto := addFlag video.flags_contexto flag }

/-- Mirrors `_aplicar_contexto_duracion`. -/
def aplicar_contexto_duracion (video : VideoAnaliticaDTO) : VideoAnaliticaDTO :=
  let duracion := video.stream_video.duracion_seg
  let video := { video with duracion_categoria := some (calcular_duracion_categoria duracion) }
  if duracion ≤ 0 then video
  else if duracion < 10 then agregar_flag video "MUY_CORTO"
  else if duracion < 30 then agregar_flag video "DURACION_CORTA"
  else video

/-- Mirrors `_calcular_bits_por_pixel_frame` (`not bitrate or bitrate <= 0`
rejects `None`, `0` and negatives alike). -/
def calcular_bits_por_pixel_frame
    (bitrate_video_bps : Option Int) (width height : Int) (fps : ℚ) : Option ℚ :=
  match bitrate_video_bps with
  | none => none
  | some b =>
    if b ≤ 0 then none
    else if width ≤ 0 ∨ height ≤ 0 ∨ fps ≤ 0 then none
    else
      let denominador := (width : ℚ) * (height : ℚ) * fps
      if denominador ≤ 0 then none
      else some (pyRound5 ((b : ℚ) / denominador))

/-- Mirrors `_calcular_kbps`. -/
def calcular_kbps (valor_bps : Option Int) : Option Int :=
  match valor_bps with
  | none => none
  | some v => if v ≤ 0 then none else some (pyRound ((v : ℚ) / 1000))

/-- Mirrors `_calcular_audio_share_pct`. -/
def calcular_audio_share_pct
    (streams_audio : Option (List AudioStreamDTO)) (bitrate_total : Option Int) : Option ℚ :=
  match bitrate_total with
  | none => none
  | some bt =>
    if bt ≤ 0 then none
    else
      match streams_audio with
      | none => none
      | some streams =>
        if streams = [] then none
        else
          let aporte := ((streams.filterMap (fun s => bitratePositivo s.bitrate_bps)).map
            (fun b => (b : ℚ))).sum
          if aporte ≤ 0 then none
          else some (100 * (aporte / (bt : ℚ)))

/-- One comparison step of Python `min(xs, key=clave)`: the running best is
replaced only on a strictly smaller key, so earlier elements win ties. -/
def mejorPaso (clave : Int → ℚ) (mejor x : Int) : Int :=
  if clave x < clave mejor then x else mejor

/-- Python `min(xs, key=clave)`: the first element of `xs` realising the
minimal key (earlier elements win ties). -/
def minimoPorClave (clave : Int → ℚ) : List Int → Option Int
  | [] => none
  | c :: resto => some (resto.foldl (mejorPaso clave) c)

/-- Mirrors `_normalizar_altura`. -/
def normalizar_altura (height : Int) : Option Int :=
  if height ≤ 0 then none
  else minimoPorClave (fun objetivo => pyAbs ((objetivo : ℚ) - (height : ℚ))) RESOLUCIONES_NORMALIZADAS

/-- Mirrors `_normalizar_fps` (`not fps or fps <= 0`: `0.0` is falsy, so the
test is exactly `fps ≤ 0`). -/
def normalizar_fps (fps : ℚ) : Option Int :=
  if fps ≤ 0 then none
  else minimoPorClave (fun objetivo => pyAbs ((objetivo : ℚ) - fps)) FPS_NORMALIZADOS

/-- Mirrors `_resolver_bucket_resolucion`.  `video.stream_video.codec or
"UNKNOWN"` substitutes `UNKNOWN` exactly when the codec string is empty. -/
def resolver_bucket_resolucion (video : VideoAnaliticaDTO) : Option String :=
  match normalizar_altura video.stream_video.height, normalizar_fps video.stream_video.fps with
  | some altura, some fps =>
    let codec := pyUpper (if video.stream_video.codec = "" then "UNKNOWN" else video.stream_video.codec)
    let bucket := toString altura ++ "p@" ++ toString fps
    let bucket := if video.stream_video.es_hdr then bucket ++ "/HDR" else bucket
    some (bucket ++ "/" ++ codec)
  | _, _ => none

/-- Mirrors `_promedio`. -/
def promedio (valores : List ℚ) : Option ℚ :=
  if valores = [] then none
  else some (valores.sum / (valores.length : ℚ))

/-- Mirrors `_desviacion_std` up to the final `sqrt`: the source returns
`sqrt(varianza)`; this embedding carries the variance itself.  `sqrt` is a
total map on the non-negative reals (and `varianza ≥ 0` always, see
`varianza_nonneg`), so definedness — the only aspect the claims touch — is
identical. -/
def desviacion_std (valores : List ℚ) : Option ℚ :=
  if valores.length < 2 then none
  else
    match promedio valores with
    | none => none
    | some p => some ((valores.map (fun v => (v - p) ^ 2)).sum / (valores.length : ℚ))

/-- Mirrors `_mediana`.  Python's `sorted` is an ascending sort; on a list of
plain values any correct sort produces the same list, and
`List.insertionSort` is structurally recursive (so terms reduce) with
sortedness and permutation lemmas in Mathlib.  The `getD` default is never
used (indices are in range). -/
def mediana (valores : List ℚ) : Option ℚ :=
  if valores = [] then none
  else
    let ordenados := valores.insertionSort (· ≤ ·)
    let mitad := ordenados.length / 2
    if ordenados.length % 2 = 1 then some (ordenados.getD mitad 0)
    else some ((ordenados.getD (mitad - 1) 0 + ordenados.getD mitad 0) / 2)

/-- Mirrors `_mad`. -/
def mad (valores : List ℚ) (m : Option ℚ) : Option ℚ :=
  if valores = [] then none
  else
    match m with
    | none => none
    | some med => mediana (valores.map (fun v => pyAbs (v - med)))

/-- Mirrors `_actualizar_flags_bitrate`. -/
def actualizar_flags_bitrate (video : VideoAnaliticaDTO) (fuente : String) : VideoAnaliticaDTO :=
  let video :=
    if fuente = "componentes" ∨ fuente = "tamano" ∨ fuente = "none" then
      agregar_flag video "BITRATE_CONTAINER_FALTANTE"
    else video
  if fuente = "tamano" then agregar_flag video "ESTIMACION_BITRATE" else video

/-- Body of the `for video in videos` loop of `calcular_metricas_derivadas`,
in source order.  Each pass mutates only derived fields; the raw fields
(`archivo`, `stream_video`, `streams_audio`) are read-only. -/
def calcular_metricas_video (video : VideoAnaliticaDTO) : VideoAnaliticaDTO :=
  let video := { video with
    mb_por_minuto := calcular_mb_por_minuto video.archivo.size_bytes (some video.stream_video.duracion_seg) }
  let video := aplicar_contexto_duracion video
  let resultado := calcular_bitrate_total_estimado
    video.stream_video.bitrate_container_bps
    video.stream_video.bitrate_bps
    video.streams_audio
    video.archivo.size_bytes
    (some video.stream_video.duracion_seg)
  let video := { video with bitrate_total_estimado := resultado.1 }
  let video := actualizar_flags_bitrate video resultado.2
  let video := if video.stream_video.es_vfr then agregar_flag video "VFR" else video
  let video := if video.stream_video.es_hdr then agregar_flag video "HDR" else video
  let video := { video with
    bits_por_pixel_frame := calcular_bits_por_pixel_frame
      video.stream_video.bitrate_bps video.stream_video.width
      video.stream_video.height video.stream_video.fps }
  let video := { video with kbps_total := calcular_kbps video.bitrate_total_estimado }
  let video := { video with kbps_video := calcular_kbps video.stream_video.bitrate_bps }
  let video := { video with
    audio_share_pct := calcular_audio_share_pct video.streams_audio video.bitrate_total_estimado }
  { video with bucket_resolucion_fps := resolver_bucket_resolucion video }

/-- Mirrors `calcular_metricas_derivadas` (the in-place loop becomes a map). -/
def calcular_metricas_derivadas (videos : List VideoAnaliticaDTO) : List VideoAnaliticaDTO :=
  videos.map calcular_metricas_video

/-- Mirrors `calcular_metricas_bucket`.  Python `if video.bitrate_total_estimado`
keeps values that are present and non-zero; `int(round(x))` is `pyRound`. -/
def calcular_metricas_bucket (bucket_id : String) (videos : List VideoAnaliticaDTO) :
    BucketResumenDTO :=
  let valores_mb := videos.filterMap (fun video => video.mb_por_minuto)
  let promedio_mb := promedio valores_mb
  let d_std := desviacion_std valores_mb
  let med := mediana valores_mb
  let mad_mb := mad valores_mb med
  let valores_bitrate := videos.filterMap (fun video =>
    match video.bitrate_total_estimado with
    | some b => if b ≠ 0 then some (b : ℚ) else none
    | none => none)
  let promedio_bitrate := promedio valores_bitrate
  { bucket_id := bucket_id
    promedio_mb_min := promedio_mb
    promedio_bitrate := promedio_bitrate.map pyRound
    videos_outliers := []
    total_videos := videos.length
    desviacion_std_mb_min := d_std
    mediana_mb_min := med
    mad_mb_min := mad_mb }

/-- Mirrors `UmbralDetalle` (a total `TypedDict`). -/
structure UmbralDetalle where
  outlier_suave : ℚ
  outlier_fuerte : ℚ
  deriving Repr, DecidableEq

/-- Mirrors `UmbralesOutliers` (`total=False`: both keys optional). -/
structure UmbralesOutliers where
  mb_por_minuto : Option UmbralDetalle := none
  min_bucket : Option Int := none
  deriving Repr, DecidableEq

/-- Body of the `for video in videos` loop of `marcar_outliers`: returns the
updated video and the identifiers this iteration appends to
`bucket_resumen.videos_outliers` (zero or one). -/
def procesar_video_outlier
    (mediana_mb denominador : Option ℚ) (umbral_suave umbral_fuerte : ℚ)
    (bucket_pequeno : Bool) (video : VideoAnaliticaDTO) :
    VideoAnaliticaDTO × List String :=
  let video := if bucket_pequeno then agregar_flag video "BUCKET_PEQUENO" else video
  match video.mb_por_minuto, mediana_mb with
  | some valor, some med =>
    if med ≤ 0 then ({ video with ratio_vs_promedio_bucket := none }, [])
    else
      let video := { video with ratio_vs_promedio_bucket := some (valor / med) }
      match denominador with
      | none => (video, [])
      | some den =>
        let z_score := (valor - med) / den
        if umbral_fuerte ≤ pyAbs z_score then
          (agregar_flag video "OUTLIER_FUERTE", [video.archivo.ruta])
        else if umbral_suave ≤ pyAbs z_score then
          (agregar_flag video "OUTLIER_SUAVE", [video.archivo.ruta])
        else (video, [])
  | _, _ => ({ video with ratio_vs_promedio_bucket := none }, [])

/-- `umbrales.get("mb_por_minuto", {}).get("outlier_suave", 2.0)`. -/
def umbralSuaveDe (umbrales : UmbralesOutliers) : ℚ :=
  match umbrales.mb_por_minuto with | some u => u.outlier_suave | none => 2.0

/-- `umbrales.get("mb_por_minuto", {}).get("outlier_fuerte", 3.0)`. -/
def umbralFuerteDe (umbrales : UmbralesOutliers) : ℚ :=
  match umbrales.mb_por_minuto with | some u => u.outlier_fuerte | none => 3.0

/-- `_MAD_FACTOR * mad if mad and mad > 0 else None`: defined exactly for a
present, positive MAD (`0.0` is falsy in Python). -/
def denominadorDe (bucket_resumen : BucketResumenDTO) : Option ℚ :=
  match bucket_resumen.mad_mb_min with
  | some d => if 0 < d then some (MAD_FACTOR * d) else none
  | none => none

/-- `bucket_resumen.total_videos < umbrales.get("min_bucket", _MIN_BUCKET_CONFIABLE)`. -/
def pequenoDe (bucket_resumen : BucketResumenDTO) (umbrales : UmbralesOutliers) : Bool :=
  decide (bucket_resumen.total_videos < umbrales.min_bucket.getD MIN_BUCKET_CONFIABLE)

/-- Mirrors `marcar_outliers`.  `umbrales.get(...)` defaults are `2.0`, `3.0`
and `_MIN_BUCKET_CONFIABLE`; `mad and mad > 0` holds exactly for a present,
positive MAD.  The loop's in-place appends become, in order, the flattening of
the per-video appended identifiers. -/
def marcar_outliers (videos : List VideoAnaliticaDTO) (bucket_resumen : BucketResumenDTO)
    (umbrales : UmbralesOutliers) : List VideoAnaliticaDTO × BucketResumenDTO :=
  if videos = [] then (videos, bucket_resumen)
  else
    let procesados := videos.map
      (procesar_video_outlier bucket_resumen.mediana_mb_min (denominadorDe bucket_resumen)
        (umbralSuaveDe umbrales) (umbralFuerteDe umbrales) (pequenoDe bucket_resumen umbrales))
    (procesados.map Prod.fst,
     { bucket_resumen with
       videos_outliers := bucket_resumen.videos_outliers ++ (procesados.map Prod.snd).flatten })

/-- A video carries the given context flag (`flag in video.flags_contexto`,
with a `None` field meaning no flags). -/
def tieneFlag (video : VideoAnaliticaDTO) (flag : String) : Prop :=
  flag ∈ video.flags_contexto.getD []

instance (video : VideoAnaliticaDTO) (flag : String) : Decidable (tieneFlag video flag) :=
  inferInstanceAs (Decidable (flag ∈ video.flags_contexto.getD []))

/-- Folding `_agregar_flag` over a list of flags. -/
def addFlags (flags : Option (List String)) (nuevas : List String) : Option (List String) :=
  nuevas.foldl addFlag flags

/-- The exact ordered list of context flags one `calcular_metricas_derivadas`
pass tries to add to a video, as a function of its raw fields only. -/
def flagsDerivados (video : VideoAnaliticaDTO) : List String :=
  let d := video.stream_video.duracion_seg
  let fuente := (calcular_bitrate_total_estimado
    video.stream_video.bitrate_container_bps
    video.stream_video.bitrate_bps
    video.streams_audio
    video.archivo.size_bytes
    (some video.stream_video.duracion_seg)).2
  (if d ≤ 0 then []
   else if d < 10 then ["MUY_CORTO"]
   else if d < 30 then ["DURACION_CORTA"]
   else []) ++
  ((if fuente = "componentes" ∨ fuente = "tamano" ∨ fuente = "none" then
      ["BITRATE_CONTAINER_FALTANTE"]
    else []) ++
   (if fuente = "tamano" then ["ESTIMACION_BITRATE"] else [])) ++
  (if video.stream_video.es_vfr then ["VFR"] else []) ++
  (if video.stream_video.es_hdr then ["HDR"] else [])

/-- Sample record in the shape of the test fixtures (`_build_video`). -/
def videoEjemplo (duracion : ℚ) : VideoAnaliticaDTO :=
  { archivo := ⟨"video.mp4", 6 * 1024 * 1024, "2024-01-01T00:00:00"⟩
    stream_video :=
      ⟨duracion, "mp4", "h264", none, none, 640, 480, 30, "yuv420p",
       none, none, none, none, none, false, false⟩ }

/-!
`E`-instrumented variants: the same functions with every Python run-time
failure source made explicit in `Except String` — division (`ZeroDivisionError`),
list indexing (`IndexError`), `min` of an empty sequence (`ValueError`) and
the `sqrt` domain (`ValueError`).  A normal return is `.ok`.  The safety
claim is that each variant always returns `.ok` of the plain function's
result.
-/

/-- Division with Python's `ZeroDivisionError` made explicit. -/
def qdivE (a b : ℚ) : Except String ℚ :=
  if b = 0 then .error "ZeroDivisionError: division by zero" else .ok (a / b)

/-- List indexing with Python's `IndexError` made explicit. -/
def getE (l : List ℚ) (i : Nat) : Except String ℚ :=
  match l[i]? with
  | some x => .ok x
  | none => .error "IndexError: list index out of range"

/-- The domain check of `math.sqrt` (`ValueError` on a negative argument);
the value carried is the radicand, as in `desviacion_std`. -/
def sqrtDominioE (x : ℚ) : Except String ℚ :=
  if x < 0 then .error "ValueError: math domain error" else .ok x

/-- `map` that propagates the first failure, like a Python `for` loop. -/
def mapE (f : α → Except String β) : List α → Except String (List β)
  | [] => .ok []
  | x :: xs => do
    let y ← f x
    let ys ← mapE f xs
    pure (y :: ys)

/-- `calcular_mb_por_minuto` with explicit division errors. -/
def calcular_mb_por_minutoE (size_bytes : Int) (duracion_seg : Option ℚ) :
    Except String (Option ℚ) :=
  if size_bytes ≤ 0 then .ok none
  else
    match duracion_seg with
    | none => .ok none
    | some d =>
      if d ≤ 0 then .ok none
      else do
        let minutos ← qdivE d (SEGUNDOS_POR_MINUTO : ℚ)
        if minutos ≤ 0 then pure none
        else do
          let megabytes ← qdivE (size_bytes : ℚ) (BYTES_POR_MB : ℚ)
          let r ← qdivE megabytes minutos
          pure (some r)

/-- `calcular_bitrate_total_estimado` with explicit division errors. -/
def calcular_bitrate_total_estimadoE
    (bitrate_container_bps bitrate_video_bps : Option Int)
    (streams_audio : Option (List AudioStreamDTO))
    (size_bytes : Int) (duracion_seg : Option ℚ) :
    Except String (Option Int × String) :=
  match bitratePositivo bitrate_container_bps with
  | some c => .ok (some c, "format")
  | none =>
    let componentes := componentesBitrate bitrate_video_bps streams_audio
    if componentes ≠ [] then .ok (some componentes.sum, "componentes")
    else
      match duracion_seg with
      | some d =>
        if 0 < size_bytes ∧ 0 < d then do
          let cociente ← qdivE (size_bytes * BITS_POR_BYTE : ℚ) d
          pure (some ⌊cociente⌋, "tamano")
        else .ok (none, "none")
      | none => .ok (none, "none")

/-- `_calcular_bits_por_pixel_frame` with explicit division errors. -/
def calcular_bits_por_pixel_frameE
    (bitrate_video_bps : Option Int) (width height : Int) (fps : ℚ) :
    Except String (Option ℚ) :=
  match bitrate_video_bps with
  | none => .ok none
  | some b =>
    if b ≤ 0 then .ok none
    else if width ≤ 0 ∨ height ≤ 0 ∨ fps ≤ 0 then .ok none
    else
      let denominador := (width : ℚ) * (height : ℚ) * fps
      if denominador ≤ 0 then .ok none
      else do
        let r ← qdivE (b : ℚ) denominador
        pure (some (pyRound5 r))

/-- `_calcular_kbps` with explicit division errors. -/
def calcular_kbpsE (valor_bps : Option Int) : Except String (Option Int) :=
  match valor_bps with
  | none => .ok none
  | some v =>
    if v ≤ 0 then .ok none
    else do
      let r ← qdivE (v : ℚ) 1000
      pure (some (pyRound r))

/-- `_calcular_audio_share_pct` with explicit division errors. -/
def calcular_audio_share_pctE
    (streams_audio : Option (List AudioStreamDTO)) (bitrate_total : Option Int) :
    Except String (Option ℚ) :=
  match bitrate_total with
  | none => .ok none
  | some bt =>
    if bt ≤ 0 then .ok none
    else
      match streams_audio with
      | none => .ok none
      | some streams =>
        if streams = [] then .ok none
        else
          let aporte := ((streams.filterMap (fun s => bitratePositivo s.bitrate_bps)).map
            (fun b => (b : ℚ))).sum
          if aporte ≤ 0 then .ok none
          else do
            let r ← qdivE aporte (bt : ℚ)
            pure (some (100 * r))

/-- `min(xs, key=clave)` with Python's empty-sequence `ValueError` explicit. -/
def minimoPorClaveE (clave : Int → ℚ) : List Int → Except String Int
  | [] => .error "ValueError: min() arg is an empty sequence"
  | c :: resto => .ok (resto.foldl (mejorPaso clave) c)

/-- `_normalizar_altura`, instrumented. -/
def normalizar_alturaE (height : Int) : Except String (Option Int) :=
  if height ≤ 0 then .ok none
  else do
    let r ← minimoPorClaveE (fun objetivo => pyAbs ((objetivo : ℚ) - (height : ℚ)))
      RESOLUCIONES_NORMALIZADAS
    pure (some r)

/-- `_normalizar_fps`, instrumented. -/
def normalizar_fpsE (fps : ℚ) : Except String (Option Int) :=
  if fps ≤ 0 then .ok none
  else do
    let r ← minimoPorClaveE (fun objetivo => pyAbs ((objetivo : ℚ) - fps)) FPS_NORMALIZADOS
    pure (some r)

/-- `_resolver_bucket_resolucion`, instrumented (the bucket classifier). -/
def resolver_bucket_resolucionE (video : VideoAnaliticaDTO) : Except String (Option String) := do
  let altura ← normalizar_alturaE video.stream_video.height
  let fps ← normalizar_fpsE video.stream_video.fps
  match altura, fps with
  | some a, some f =>
    let codec := pyUpper (if video.stream_video.codec = "" then "UNKNOWN" else video.stream_video.codec)
    let bucket := toString a ++ "p@" ++ toString f
    let bucket := if video.stream_video.es_hdr then bucket ++ "/HDR" else bucket
    pure (some (bucket ++ "/" ++ codec))
  | _, _ => pure none

/-- `_promedio`, instrumented. -/
def promedioE (valores : List ℚ) : Except String (Option ℚ) :=
  if valores = [] then .ok none
  else do
    let r ← qdivE valores.sum (valores.length : ℚ)
    pure (some r)

/-- `_desviacion_std`, instrumented (division and the `sqrt` domain). -/
def desviacion_stdE (valores : List ℚ) : Except String (Option ℚ) :=
  if valores.length < 2 then .ok none
  else do
    let p ← promedioE valores
    match p with
    | none => pure none
    | some prom => do
      let varianza ← qdivE ((valores.map (fun v => (v - prom) ^ 2)).sum) (valores.length : ℚ)
      let r ← sqrtDominioE varianza
      pure (some r)

/-- `_mediana`, instrumented (list indexing and the `/ 2` divisions). -/
def medianaE (valores : List ℚ) : Except String (Option ℚ) :=
  if valores = [] then .ok none
  else
    let ordenados := valores.insertionSort (· ≤ ·)
    let mitad := ordenados.length / 2
    if ordenados.length % 2 = 1 then do
      let x ← getE ordenados mitad
      pure (some x)
    else do
      let izquierdo ← getE ordenados (mitad - 1)
      let derecho ← getE ordenados mitad
      let r ← qdivE (izquierdo + derecho) 2
      pure (some r)

/-- `_mad`, instrumented. -/
def madE (valores : List ℚ) (m : Option ℚ) : Except String (Option ℚ) :=
  if valores = [] then .ok none
  else
    match m with
    | none => .ok none
    | some med => medianaE (valores.map (fun v => pyAbs (v - med)))

/-- Loop body of `calcular_metricas_derivadas`, instrumented. -/
def calcular_metricas_videoE (video : VideoAnaliticaDTO) : Except String VideoAnaliticaDTO := do
  let mb ← calcular_mb_por_minutoE video.archivo.size_bytes (some video.stream_video.duracion_seg)
  let video := { video with mb_por_minuto := mb }
  let video := aplicar_contexto_duracion video
  let resultado ← calcular_bitrate_total_estimadoE
    video.stream_video.bitrate_container_bps
    video.stream_video.bitrate_bps
    video.streams_audio
    video.archivo.size_bytes
    (some video.stream_video.duracion_seg)
  let video := { video with bitrate_total_estimado := resultado.1 }
  let video := actualizar_flags_bitrate video resultado.2
  let video := if video.stream_video.es_vfr then agregar_flag video "VFR" else video
  let video := if video.stream_video.es_hdr then agregar_flag video "HDR" else video
  let bits ← calcular_bits_por_pixel_frameE
    video.stream_video.bitrate_bps video.stream_video.width
    video.stream_video.height video.stream_video.fps
  let video := { video with bits_por_pixel_frame := bits }
  let kt ← calcular_kbpsE video.bitrate_total_estimado
  let video := { video with kbps_total := kt }
  let kv ← calcular_kbpsE video.stream_video.bitrate_bps
  let video := { video with kbps_video := kv }
  let audio ← calcular_audio_share_pctE video.streams_audio video.bitrate_total_estimado
  let video := { video with audio_share_pct := audio }
  let bucket ← resolver_bucket_resolucionE video
  pure { video with bucket_resolucion_fps := bucket }

/-- `calcular_metricas_derivadas`, instrumented (the metric calculator). -/
def calcular_metricas_derivadasE (videos : List VideoAnaliticaDTO) :
    Except String (List VideoAnaliticaDTO) :=
  mapE calcular_metricas_videoE videos

/-- `calcular_metricas_bucket`, instrumented (the bucket aggregator). -/
def calcular_metricas_bucketE (bucket_id : String) (videos : List VideoAnaliticaDTO) :
    Except String BucketResumenDTO := do
  let valores_mb := videos.filterMap (fun video => video.mb_por_minuto)
  let promedio_mb ← promedioE valores_mb
  let d_std ← desviacion_stdE valores_mb
  let med ← medianaE valores_mb
  let mad_mb ← madE valores_mb med
  let valores_bitrate := videos.filterMap (fun video =>
    match video.bitrate_total_estimado with
    | some b => if b ≠ 0 then some (b : ℚ) else none
    | none => none)
  let promedio_bitrate ← promedioE valores_bitrate
  pure
    { bucket_id := bucket_id
      promedio_mb_min := promedio_mb
      promedio_bitrate := promedio_bitrate.map pyRound
      videos_outliers := []
      total_videos := videos.length
      desviacion_std_mb_min := d_std
      mediana_mb_min := med
      mad_mb_min := mad_mb }

/-- Loop body of `marcar_outliers`, instrumented. -/
def procesar_video_outlierE
    (mediana_mb denominador : Option ℚ) (umbral_suave umbral_fuerte : ℚ)
    (bucket_pequeno : Bool) (video : VideoAnaliticaDTO) :
    Except String (VideoAnaliticaDTO × List String) := do
  let video := if bucket_pequeno then agregar_flag video "BUCKET_PEQUENO" else video
  match video.mb_por_minuto, mediana_mb with
  | some valor, some med =>
    if med ≤ 0 then pure ({ video with ratio_vs_promedio_bucket := none }, [])
    else do
      let ratio ← qdivE valor med
      let video := { video with ratio_vs_promedio_bucket := some ratio }
      match denominador with
      | none => pure (video, [])
      | some den => do
        let z_score ← qdivE (valor - med) den
        if umbral_fuerte ≤ pyAbs z_score then
          pure (agregar_flag video "OUTLIER_FUERTE", [video.archivo.ruta])
        else if umbral_suave ≤ pyAbs z_score then
          pure (agregar_flag video "OUTLIER_SUAVE", [video.archivo.ruta])
        else pure (video, [])
  | _, _ => pure ({ video with ratio_vs_promedio_bucket := none }, [])

/-- `marcar_outliers`, instrumented (the outlier detector). -/
def marcar_outliersE (videos : List VideoAnaliticaDTO) (bucket_resumen : BucketResumenDTO)
    (umbrales : UmbralesOutliers) :
    Except String (List VideoAnaliticaDTO × BucketResumenDTO) :=
  if videos = [] then .ok (videos, bucket_resumen)
  else do
    let procesados ← mapE
      (procesar_video_outlierE bucket_resumen.mediana_mb_min (denominadorDe bucket_resumen)
        (umbralSuaveDe umbrales) (umbralFuerteDe umbrales) (pequenoDe bucket_resumen umbrales))
      videos
    pure (procesados.map Prod.fst,
      { bucket_resumen with
        videos_outliers := bucket_resumen.videos_outliers ++ (procesados.map Prod.snd).flatten })

end MetricasVideos

namespace Evaluador

/-!
Embedding of `app-analizar/evaluador.py`.  `Comparacion` is the literal string
(`"maximo" | "minimo" | "rango"`); `Union[Number, Rango]` becomes
`Recomendado`.  Python exceptions (the `assert` in `_as_rango`, `TypeError`
from `float(tuple)` and from unpacking a non-iterable) are made explicit with
`Except String`; a normal return is `.ok`.
-/

/-- Models `Union[Number, Rango]`, the type of `ReglaMetrica.recomendado`. -/
inductive Recomendado where
  | num (valor : ℚ)
  | rango (minimo maximo : ℚ)
  deriving Repr, DecidableEq

/-- Mirrors the frozen dataclass `Evaluacion`. -/
structure Evaluacion where
  clave : String
  valor : Option ℚ
  recomendado : String
  ok : Option Bool
  diferencia_pct : Option ℚ
  detalle : String
  deriving Repr, DecidableEq

/-- Mirrors the frozen dataclass `ReglaMetrica`.  Its constructor performs no
validation: any combination of fields is accepted. -/
structure ReglaMetrica where
  clave : String
  descripcion : String
  unidad : String
  comparacion : String
  recomendado : Recomendado
  deriving Repr, DecidableEq

/-- Fixed-point rendering `"{:.d f}"` used by the detail strings, idealised on
`ℚ` (Python formats binary floats; ties go to even via `pyRound`). -/
def formatoFijo (x : ℚ) (decimales : Nat) : String :=
  let n := MetricasVideos.pyRound (x * ((10 : ℚ) ^ decimales))
  let a := n.natAbs
  let fracStr := toString (a % 10 ^ decimales)
  let ceros := String.mk (List.replicate (decimales - fracStr.length) '0')
  (if n < 0 then "-" else "") ++ toString (a / 10 ^ decimales) ++ "." ++ ceros ++ fracStr

/-- Mirrors `_fmt`: whole numbers without decimals, else two decimal places. -/
def fmt (valor : ℚ) : String :=
  if valor.den = 1 then toString valor.num else formatoFijo valor 2

/-- Mirrors `_calc_diff_pct`. -/
def calc_diff_pct (valor referencia : ℚ) : Option ℚ :=
  if referencia = 0 then none else some (|valor - referencia| / referencia * 100)

/-- `float(self.recomendado)`: fails with `TypeError` on a tuple. -/
def comoFloat (r : Recomendado) : Except String ℚ :=
  match r with
  | .num q => .ok q
  | .rango _ _ => .error "TypeError: float() argument is a tuple"

/-- Mirrors `ReglaMetrica._as_rango`: an `assert` guards the comparison mode,
then `minimo, maximo = self.recomendado` fails with `TypeError` when the
bounds are a single number. -/
def as_rango (regla : ReglaMetrica) : Except String (ℚ × ℚ) :=
  if regla.comparacion ≠ "rango" then .error "AssertionError: la regla no es de rango"
  else
    match regla.recomendado with
    | .rango minimo maximo => .ok (minimo, maximo)
    | .num _ => .error "TypeError: cannot unpack non-iterable float"

/-- Mirrors `ReglaMetrica.formato_recomendado`. -/
def formato_recomendado (regla : ReglaMetrica) : Except String String :=
  if regla.comparacion = "rango" then do
    let r ← as_rango regla
    pure (String.trim (fmt r.1 ++ " - " ++ fmt r.2 ++ " " ++ regla.unidad))
  else do
    let limite ← comoFloat regla.recomendado
    let operador := if regla.comparacion = "maximo" then "<=" else ">="
    pure (String.trim (operador ++ " " ++ fmt limite ++ " " ++ regla.unidad))

/-- Mirrors `ReglaMetrica.evaluar`.  Note the source computes
`recomendado_txt = self.formato_recomendado()` before the `valor is None`
early return, so a malformed rule raises even on a missing value. -/
def evaluar (regla : ReglaMetrica) (valor : Option ℚ) : Except String Evaluacion := do
  let recomendado_txt ← formato_recomendado regla
  match valor with
  | none => pure ⟨regla.clave, none, recomendado_txt, none, none, "sin dato"⟩
  | some v =>
    if regla.comparacion = "maximo" then do
      let limite ← comoFloat regla.recomendado
      let ok := decide (v ≤ limite)
      let diff_pct : Option ℚ :=
        if ok = false ∧ 0 < limite then calc_diff_pct v limite else some 0
      let detalle :=
        if ok then "dentro del maximo esperado"
        else "supera el maximo en " ++ formatoFijo (diff_pct.getD 0) 1 ++ "%"
      pure ⟨regla.clave, some v, recomendado_txt, some ok, diff_pct, detalle⟩
    else if regla.comparacion = "minimo" then do
      let limite ← comoFloat regla.recomendado
      let ok := decide (limite ≤ v)
      let diff_pct : Option ℚ :=
        if ok = false ∧ 0 < limite then calc_diff_pct v limite else some 0
      let detalle :=
        if ok then "cumple el minimo esperado"
        else "queda " ++ formatoFijo (diff_pct.getD 0) 1 ++ "% por debajo del minimo"
      pure ⟨regla.clave, some v, recomendado_txt, some ok, diff_pct, detalle⟩
    else do
      let r ← as_rango regla
      if r.1 ≤ v ∧ v ≤ r.2 then
        pure ⟨regla.clave, some v, recomendado_txt, some true, some 0, "dentro del rango objetivo"⟩
      else if v < r.1 then
        let diff_pct := if 0 < r.1 then calc_diff_pct v r.1 else none
        let detalle :=
          match diff_pct with
          | none => "por debajo del rango"
          | some d => formatoFijo d 1 ++ "% por debajo del minimo"
        pure ⟨regla.clave, some v, recomendado_txt, some false, diff_pct, detalle⟩
      else
        let diff_pct := if 0 < r.2 then calc_diff_pct v r.2 else none
        let detalle :=
          match diff_pct with
          | none => "por encima del rango"
          | some d => formatoFijo d 1 ++ "% por encima del maximo"
        pure ⟨regla.clave, some v, recomendado_txt, some false, diff_pct, detalle⟩

end Evaluador

/-! ## Theorems -/

namespace MetricasVideos

/-- `_agregar_flag` only touches `flags_contexto`; every other field is kept. -/
theorem agregar_flag_fields (video : VideoAnaliticaDTO) (flag : String) :
    (agregar_flag video flag).archivo = video.archivo ∧
    (agregar_flag video flag).stream_video = video.stream_video ∧
    (agregar_flag video flag).streams_audio = video.streams_audio ∧
    (agregar_flag video flag).mb_por_minuto = video.mb_por_minuto ∧
    (agregar_flag video flag).bitrate_total_estimado = video.bitrate_total_estimado ∧
    (agregar_flag video flag).bits_por_pixel_frame = video.bits_por_pixel_frame ∧
    (agregar_flag video flag).kbps_total = video.kbps_total ∧
    (agregar_flag video flag).kbps_video = video.kbps_video ∧
    (agregar_flag video flag).audio_share_pct = video.audio_share_pct ∧
    (agregar_flag video flag).duracion_categoria = video.duracion_categoria ∧
    (agregar_flag video flag).bucket_resolucion_fps = video.bucket_resolucion_fps ∧
    (agregar_flag video flag).ratio_vs_promedio_bucket = video.ratio_vs_promedio_bucket :=
  ⟨rfl, rfl, rfl, rfl, rfl, rfl, rfl, rfl, rfl, rfl, rfl, rfl⟩

/-- Membership in the flag list after `_agregar_flag`. -/
theorem tieneFlag_agregar (video : VideoAnaliticaDTO) (flag g : String) :
    tieneFlag (agregar_flag video flag) g ↔ (g = flag ∨ tieneFlag video g) := by
  unfold tieneFlag agregar_flag addFlag
  match h : video.flags_contexto with
  | none => simp
  | some fs =>
    by_cases hmem : flag ∈ fs
    · simp only [if_pos hmem]
      constructor
      · intro hg; right; exact hg
      · rintro (rfl | hg)
        · simpa using hmem
        · simpa using hg
    · simp only [if_neg hmem]
      simp [List.mem_append, or_comm]

/-- **C1** Total bitrate estimation follows the four-tier precedence of the
documentation exactly.  The spec's provenance names map to the source's
`BitrateFuente` literals: `container` ↦ `"format"`, `components` ↦
`"componentes"`, `size_estimate` ↦ `"tamano"`, `none` ↦ `"none"`.  Tier 1:
a present, positive container bitrate is returned as-is; tier 2: otherwise,
the non-empty list of the positive video bitrate and the positive audio
bitrates is summed; tier 3: otherwise, with positive size and duration the
result is `floor(size_bytes * 8 / duration)`; tier 4: otherwise `None`.
The three concrete examples of the claim are included. -/
theorem C1_bitrate_total_estimado_precedencia :
    (∀ (c : Int) (bv : Option Int) (sa : Option (List AudioStreamDTO)) (sb : Int) (d : Option ℚ),
      0 < c →
      calcular_bitrate_total_estimado (some c) bv sa sb d = (some c, "format")) ∧
    (∀ (cb bv : Option Int) (sa : Option (List AudioStreamDTO)) (sb : Int) (d : Option ℚ),
      bitratePositivo cb = none → componentesBitrate bv sa ≠ [] →
      calcular_bitrate_total_estimado cb bv sa sb d =
        (some (componentesBitrate bv sa).sum, "componentes")) ∧
    (∀ (cb bv : Option Int) (sa : Option (List AudioStreamDTO)) (sb : Int) (d : ℚ),
      bitratePositivo cb = none → componentesBitrate bv sa = [] → 0 < sb → 0 < d →
      calcular_bitrate_total_estimado cb bv sa sb (some d) =
        (some ⌊(sb * 8 : ℚ) / d⌋, "tamano")) ∧
    (∀ (cb bv : Option Int) (sa : Option (List AudioStreamDTO)) (sb : Int) (d : Option ℚ),
      bitratePositivo cb = none → componentesBitrate bv sa = [] →
      (∀ q : ℚ, d = some q → ¬(0 < sb ∧ 0 < q)) →
      calcular_bitrate_total_estimado cb bv sa sb d = (none, "none")) ∧
    calcular_bitrate_total_estimado (some 300000) (some 100000)
      (some [⟨"aac", some 64000, 2, 44100, none⟩]) 0 none = (some 300000, "format") ∧
    calcular_bitrate_total_estimado none (some 200000)
      (some [⟨"aac", some 64000, 2, 44100, none⟩, ⟨"aac", none, 2, 48000, none⟩]) 0 (some 120) =
      (some 264000, "componentes") ∧
    calcular_bitrate_total_estimado none none none (8 * 1024 * 1024) (some 64) =
      (some 1048576, "tamano") := by
  have hfloor : ∀ (sb : Int) (d : ℚ) (r : Int), (sb * 8 : ℚ) / d = (r : ℚ) →
      (⌊(sb : ℚ) * (BITS_POR_BYTE : Int) / d⌋ : Int) = r := by
    intro sb d r h
    have : ((sb : ℚ)) * ((BITS_POR_BYTE : Int) : ℚ) / d = (r : ℚ) := by
      rw [show ((BITS_POR_BYTE : Int) : ℚ) = 8 by norm_num [BITS_POR_BYTE]]
      exact_mod_cast h
    rw [this, Int.floor_intCast]
  refine ⟨?_, ?_, ?_, ?_, by decide, by decide, ?_⟩
  · intro c bv sa sb d hc
    simp [calcular_bitrate_total_estimado, bitratePositivo, hc]
  · intro cb bv sa sb d h1 h2
    simp [calcular_bitrate_total_estimado, h1, h2]
  · intro cb bv sa sb d h1 h2 hsb hd
    simp only [calcular_bitrate_total_estimado, h1, h2, ne_eq, not_true_eq_false, if_false]
    rw [if_pos ⟨hsb, hd⟩]
    norm_num [BITS_POR_BYTE]
  · intro cb bv sa sb d h1 h2 h3
    cases d with
    | none => simp [calcular_bitrate_total_estimado, h1, h2]
    | some q =>
      have hq := h3 q rfl
      simp [calcular_bitrate_total_estimado, h1, h2, hq]
  · show calcular_bitrate_total_estimado none none none (8 * 1024 * 1024) (some 64) = _
    simp only [calcular_bitrate_total_estimado, componentesBitrate, bitratePositivo,
      Option.toList, List.append_nil, ne_eq, not_true_eq_false, if_false]
    rw [if_pos (by norm_num)]
    refine Prod.ext ?_ rfl
    simp only [Option.some.injEq]
    exact hfloor (8 * 1024 * 1024) 64 1048576 (by norm_num)

/-- Witness for `C1_bitrate_total_estimado_precedencia` at concrete inputs. -/
theorem C1_bitrate_total_estimado_precedencia_witness :
    calcular_bitrate_total_estimado (some 5) none none 0 none = (some 5, "format") ∧
    calcular_bitrate_total_estimado none (some 7) none 0 none = (some 7, "componentes") ∧
    calcular_bitrate_total_estimado none none none 16 (some 2) = (some 64, "tamano") ∧
    calcular_bitrate_total_estimado none none none 0 none = (none, "none") := by
  refine ⟨C1_bitrate_total_estimado_precedencia.1 5 none none 0 none (by norm_num), ?_, ?_, ?_⟩
  · simpa using
      C1_bitrate_total_estimado_precedencia.2.1 none (some 7) none 0 none (by decide) (by decide)
  · have h := C1_bitrate_total_estimado_precedencia.2.2.1 none none none 16 2 (by decide)
      (by decide) (by norm_num) (by norm_num)
    rw [show ((16 : Int) * 8 : ℚ) / 2 = ((64 : Int) : ℚ) by norm_num, Int.floor_intCast] at h
    exact h
  · exact C1_bitrate_total_estimado_precedencia.2.2.2.1 none none none 0 none (by decide)
      (by decide) (by intro q hq; cases hq)

/-- **C8** Duration categorisation and the short-clip flags.  The spec names
map to the source literals: `VERY_SHORT` ↦ `"MUY CORTO"` / flag `"MUY_CORTO"`,
`SHORT` ↦ `"CORTO"`, `MEDIUM` ↦ `"MEDIO"`, `LONG` ↦ `"LARGO"`,
`SHORT_DURATION` ↦ `"DURACION_CORTA"`.  Categories: `MUY CORTO` on `[0,10)`,
`CORTO` on `[10,120]`, `MEDIO` on `(120,300]`, `LARGO` above `300`; flag
`MUY_CORTO` is emitted exactly on `0 < d < 10`, `DURACION_CORTA` exactly on
`10 ≤ d < 30`; hence the flags are mutually exclusive and absent for
`d ≤ 0`.  Stated on a record with no prior flags so that emission is
observable as membership. -/
theorem C8_duracion_categoria_y_flags :
    ∀ (video : VideoAnaliticaDTO), video.flags_contexto = none →
    ((0 ≤ video.stream_video.duracion_seg ∧ video.stream_video.duracion_seg < 10 →
      (aplicar_contexto_duracion video).duracion_categoria = some "MUY CORTO") ∧
     (10 ≤ video.stream_video.duracion_seg ∧ video.stream_video.duracion_seg ≤ 120 →
      (aplicar_contexto_duracion video).duracion_categoria = some "CORTO") ∧
     (120 < video.stream_video.duracion_seg ∧ video.stream_video.duracion_seg ≤ 300 →
      (aplicar_contexto_duracion video).duracion_categoria = some "MEDIO") ∧
     (300 < video.stream_video.duracion_seg →
      (aplicar_contexto_duracion video).duracion_categoria = some "LARGO")) ∧
    (tieneFlag (aplicar_contexto_duracion video) "MUY_CORTO" ↔
      0 < video.stream_video.duracion_seg ∧ video.stream_video.duracion_seg < 10) ∧
    (tieneFlag (aplicar_contexto_duracion video) "DURACION_CORTA" ↔
      10 ≤ video.stream_video.duracion_seg ∧ video.stream_video.duracion_seg < 30) ∧
    ¬(tieneFlag (aplicar_contexto_duracion video) "MUY_CORTO" ∧
      tieneFlag (aplicar_contexto_duracion video) "DURACION_CORTA") := by
  intro video hf
  refine And.intro (And.intro ?_ (And.intro ?_ (And.intro ?_ ?_)))
    (And.intro ?_ (And.intro ?_ ?_))
  · rintro ⟨h0, h10⟩
    simp only [aplicar_contexto_duracion, calcular_duracion_categoria]
    split_ifs <;> first | rfl | (exfalso; linarith)
  · rintro ⟨h0, h120⟩
    simp only [aplicar_contexto_duracion, calcular_duracion_categoria]
    split_ifs <;> first | rfl | (exfalso; linarith)
  · rintro ⟨h0, h300⟩
    simp only [aplicar_contexto_duracion, calcular_duracion_categoria]
    split_ifs <;> first | rfl | (exfalso; linarith)
  · intro h0
    simp only [aplicar_contexto_duracion, calcular_duracion_categoria]
    split_ifs <;> first | rfl | (exfalso; linarith)
  · simp only [aplicar_contexto_duracion]
    split_ifs <;> simp [tieneFlag, hf, agregar_flag, addFlag] <;>
      first
        | (exact ⟨by linarith, by linarith⟩)
        | (intro h; linarith)
        | (rintro ⟨a, b⟩; linarith)
  · simp only [aplicar_contexto_duracion]
    split_ifs <;> simp [tieneFlag, hf, agregar_flag, addFlag] <;>
      first
        | (exact ⟨by linarith, by linarith⟩)
        | (intro h; linarith)
        | (rintro ⟨a, b⟩; linarith)
  · simp only [aplicar_contexto_duracion]
    split_ifs <;> simp [tieneFlag, hf, agregar_flag, addFlag]

/-- Witness for `C8_duracion_categoria_y_flags` on a concrete 5-second clip. -/
theorem C8_duracion_categoria_y_flags_witness :
    (aplicar_contexto_duracion (videoEjemplo 5)).duracion_categoria = some "MUY CORTO" ∧
    tieneFlag (aplicar_contexto_duracion (videoEjemplo 5)) "MUY_CORTO" := by
  have h := C8_duracion_categoria_y_flags (videoEjemplo 5) rfl
  exact ⟨h.1.1 (by decide), (h.2.1).mpr (by decide)⟩

/-- The fold of `mejorPaso` returns an element of `c :: l` whose key is
minimal over `c :: l`. -/
theorem foldl_mejorPaso_spec (clave : Int → ℚ) :
    ∀ (l : List Int) (c : Int),
      (l.foldl (mejorPaso clave) c = c ∨ l.foldl (mejorPaso clave) c ∈ l) ∧
      clave (l.foldl (mejorPaso clave) c) ≤ clave c ∧
      ∀ y ∈ l, clave (l.foldl (mejorPaso clave) c) ≤ clave y := by
  intro l
  induction l with
  | nil => intro c; exact ⟨Or.inl rfl, le_refl _, by simp⟩
  | cons x xs ih =>
    intro c
    obtain ⟨hmem, hle, hall⟩ := ih (mejorPaso clave c x)
    have hle' : clave (mejorPaso clave c x) ≤ clave c := by
      unfold mejorPaso; split_ifs with hx
      · exact le_of_lt hx
      · exact le_refl _
    have hlex : clave (mejorPaso clave c x) ≤ clave x := by
      unfold mejorPaso; split_ifs with hx
      · exact le_refl _
      · exact not_lt.mp hx
    simp only [List.foldl_cons]
    refine ⟨?_, le_trans hle hle', ?_⟩
    · rcases hmem with h | h
      · rw [h]
        unfold mejorPaso
        split_ifs
        · right; exact List.mem_cons_self x xs
        · left; rfl
      · right; exact List.mem_cons_of_mem x h
    · intro y hy
      rcases List.mem_cons.mp hy with rfl | hy'
      · exact le_trans hle hlex
      · exact hall y hy'

/-- `minimoPorClave` returns a minimiser of the key over the list. -/
theorem minimoPorClave_spec (clave : Int → ℚ) (l : List Int) (r : Int)
    (h : minimoPorClave clave l = some r) :
    r ∈ l ∧ ∀ y ∈ l, clave r ≤ clave y := by
  match l with
  | [] => cases h
  | c :: resto =>
    obtain ⟨hmem, hc, hall⟩ := foldl_mejorPaso_spec clave resto c
    have hr : r = resto.foldl (mejorPaso clave) c := by
      have := h
      unfold minimoPorClave at this
      exact (Option.some.inj this).symm
    subst hr
    refine ⟨?_, ?_⟩
    · rcases hmem with h' | h'
      · rw [h']; exact List.mem_cons_self c resto
      · exact List.mem_cons_of_mem c h'
    · intro y hy
      rcases List.mem_cons.mp hy with rfl | hy'
      · exact hc
      · exact hall y hy'

/-- `pyAbs` is the absolute value. -/
theorem pyAbs_eq_abs (x : ℚ) : pyAbs x = |x| := by
  unfold pyAbs
  split_ifs with h
  · exact (abs_of_neg h).symm
  · exact (abs_of_nonneg (not_lt.mp h)).symm

/-- `_normalizar_altura` is `None` exactly on a non-positive height. -/
theorem normalizar_altura_none_iff (h : Int) :
    normalizar_altura h = none ↔ h ≤ 0 := by
  unfold normalizar_altura
  split_ifs with hh
  · simp [hh]
  · simp [minimoPorClave, RESOLUCIONES_NORMALIZADAS, hh]

/-- `_normalizar_fps` is `None` exactly on a non-positive fps. -/
theorem normalizar_fps_none_iff (f : ℚ) :
    normalizar_fps f = none ↔ f ≤ 0 := by
  unfold normalizar_fps
  split_ifs with hf
  · simp [hf]
  · simp [minimoPorClave, FPS_NORMALIZADOS, hf]

/-- A defined normalised height belongs to the reference ladder and minimises
the absolute difference. -/
theorem normalizar_altura_spec (h alt : Int) (ha : normalizar_altura h = some alt) :
    alt ∈ RESOLUCIONES_NORMALIZADAS ∧
      ∀ c ∈ RESOLUCIONES_NORMALIZADAS, |(alt : ℚ) - (h : ℚ)| ≤ |(c : ℚ) - (h : ℚ)| := by
  by_cases hh : h ≤ 0
  · rw [(normalizar_altura_none_iff h).mpr hh] at ha; cases ha
  · have ha' : minimoPorClave (fun objetivo => pyAbs ((objetivo : ℚ) - (h : ℚ)))
        RESOLUCIONES_NORMALIZADAS = some alt := by
      unfold normalizar_altura at ha
      rw [if_neg hh] at ha
      exact ha
    simpa [pyAbs_eq_abs] using minimoPorClave_spec _ _ _ ha'

/-- A defined normalised fps belongs to the reference ladder and minimises
the absolute difference. -/
theorem normalizar_fps_spec (f : ℚ) (fq : Int) (hf : normalizar_fps f = some fq) :
    fq ∈ FPS_NORMALIZADOS ∧ ∀ c ∈ FPS_NORMALIZADOS, |(fq : ℚ) - f| ≤ |(c : ℚ) - f| := by
  by_cases hpos : f ≤ 0
  · rw [(normalizar_fps_none_iff f).mpr hpos] at hf; cases hf
  · have hf' : minimoPorClave (fun objetivo => pyAbs ((objetivo : ℚ) - f))
        FPS_NORMALIZADOS = some fq := by
      unfold normalizar_fps at hf
      rw [if_neg hpos] at hf
      exact hf
    simpa [pyAbs_eq_abs] using minimoPorClave_spec _ _ _ hf'

/-- **C9** The bucket classifier is a pure function of
`(height, fps, codec, is_hdr)`; it is `None` exactly when `height ≤ 0` or
`fps ≤ 0`, and otherwise produces `"{height}p@{fps}"` — with height and fps
snapped to the reference ladders by minimal absolute difference — then
`"/HDR"` when the HDR flag is set, then `"/"` and the upper-cased codec
(`"UNKNOWN"` when the codec string is empty). -/
theorem C9_bucket_clasificador :
    ∀ (video : VideoAnaliticaDTO),
    (resolver_bucket_resolucion video = none ↔
      video.stream_video.height ≤ 0 ∨ video.stream_video.fps ≤ 0) ∧
    (∀ (altura fps : Int),
      normalizar_altura video.stream_video.height = some altura →
      normalizar_fps video.stream_video.fps = some fps →
      resolver_bucket_resolucion video =
        some (toString altura ++ "p@" ++ toString fps ++
          (if video.stream_video.es_hdr then "/HDR" else "") ++ "/" ++
          pyUpper (if video.stream_video.codec = "" then "UNKNOWN"
            else video.stream_video.codec)) ∧
      altura ∈ RESOLUCIONES_NORMALIZADAS ∧
      (∀ c ∈ RESOLUCIONES_NORMALIZADAS,
        |(altura : ℚ) - (video.stream_video.height : ℚ)| ≤
          |(c : ℚ) - (video.stream_video.height : ℚ)|) ∧
      fps ∈ FPS_NORMALIZADOS ∧
      (∀ c ∈ FPS_NORMALIZADOS,
        |(fps : ℚ) - video.stream_video.fps| ≤ |(c : ℚ) - video.stream_video.fps|)) ∧
    (∀ otro : VideoAnaliticaDTO,
      otro.stream_video.height = video.stream_video.height →
      otro.stream_video.fps = video.stream_video.fps →
      otro.stream_video.codec = video.stream_video.codec →
      otro.stream_video.es_hdr = video.stream_video.es_hdr →
      resolver_bucket_resolucion otro = resolver_bucket_resolucion video) := by
  intro video
  refine ⟨?_, ?_, ?_⟩
  · constructor
    · intro hnone
      by_contra hcon
      push_neg at hcon
      obtain ⟨hh, hf⟩ := hcon
      obtain ⟨a, ha⟩ := Option.ne_none_iff_exists'.mp
        (fun hcontra => absurd ((normalizar_altura_none_iff _).mp hcontra) (not_le.mpr hh))
      obtain ⟨f, hfq⟩ := Option.ne_none_iff_exists'.mp
        (fun hcontra => absurd ((normalizar_fps_none_iff _).mp hcontra) (not_le.mpr hf))
      simp [resolver_bucket_resolucion, ha, hfq] at hnone
    · intro hor
      rcases hor with hh | hf
      · have ha := (normalizar_altura_none_iff _).mpr hh
        cases hfq : normalizar_fps video.stream_video.fps <;>
          simp [resolver_bucket_resolucion, ha, hfq]
      · have hfq := (normalizar_fps_none_iff _).mpr hf
        cases ha : normalizar_altura video.stream_video.height <;>
          simp [resolver_bucket_resolucion, ha, hfq]
  · intro altura fps ha hfq
    obtain ⟨hamem, hamin⟩ := normalizar_altura_spec _ _ ha
    obtain ⟨hfmem, hfmin⟩ := normalizar_fps_spec _ _ hfq
    refine ⟨?_, hamem, hamin, hfmem, hfmin⟩
    simp only [resolver_bucket_resolucion, ha, hfq]
    cases hhdr : video.stream_video.es_hdr <;> simp [String.append_assoc]
  · intro otro h1 h2 h3 h4
    simp only [resolver_bucket_resolucion, h1, h2, h3, h4]

/-- Witness for `C9_bucket_clasificador` on a concrete 480p/30fps/h264 SDR
video. -/
theorem C9_bucket_clasificador_witness :
    resolver_bucket_resolucion (videoEjemplo 5) = some "480p@30/H264" ∧
    (480 : Int) ∈ RESOLUCIONES_NORMALIZADAS := by
  have ha : normalizar_altura (videoEjemplo 5).stream_video.height = some 480 := by
    norm_num [videoEjemplo, normalizar_altura, minimoPorClave, RESOLUCIONES_NORMALIZADAS,
      mejorPaso, pyAbs]
  have hf : normalizar_fps (videoEjemplo 5).stream_video.fps = some 30 := by
    norm_num [videoEjemplo, normalizar_fps, minimoPorClave, FPS_NORMALIZADOS, mejorPaso, pyAbs]
  have h := (C9_bucket_clasificador (videoEjemplo 5)).2.1 480 30 ha hf
  refine ⟨?_, h.2.1⟩
  rw [h.1]
  decide

/-- **C10** Snapping ties: a positive height (or fps) exactly equidistant
from two adjacent ladder values is snapped to the smaller of the two. -/
theorem C10_empate_redondeo_al_menor :
    (∀ (h a b : Int), 0 < h →
      (a, b) ∈ RESOLUCIONES_NORMALIZADAS.zip RESOLUCIONES_NORMALIZADAS.tail →
      |(a : ℚ) - (h : ℚ)| = |(b : ℚ) - (h : ℚ)| →
      normalizar_altura h = some a) ∧
    (∀ (f : ℚ) (a b : Int), 0 < f →
      (a, b) ∈ FPS_NORMALIZADOS.zip FPS_NORMALIZADOS.tail →
      |(a : ℚ) - f| = |(b : ℚ) - f| →
      normalizar_fps f = some a) := by
  constructor
  · intro h a b hpos hmem heq
    have hzip : RESOLUCIONES_NORMALIZADAS.zip RESOLUCIONES_NORMALIZADAS.tail =
        [(144, 240), (240, 360), (360, 480), (480, 720), (720, 1080),
         (1080, 1440), (1440, 2160), (2160, 4320)] := rfl
    rw [hzip] at hmem
    simp only [List.mem_cons, List.not_mem_nil, or_false, Prod.mk.injEq] at hmem
    rcases hmem with hp | hp | hp | hp | hp | hp | hp | hp <;>
      obtain ⟨rfl, rfl⟩ := hp <;>
      rcases abs_eq_abs.mp heq with h1 | h1 <;>
      push_cast at h1 <;>
      first
        | (exfalso; linarith)
        | (have h2 : h = 192 := by exact_mod_cast (show (h : ℚ) = 192 by linarith)
           subst h2
           norm_num [normalizar_altura, minimoPorClave, RESOLUCIONES_NORMALIZADAS, mejorPaso, pyAbs])
        | (have h2 : h = 300 := by exact_mod_cast (show (h : ℚ) = 300 by linarith)
           subst h2
           norm_num [normalizar_altura, minimoPorClave, RESOLUCIONES_NORMALIZADAS, mejorPaso, pyAbs])
        | (have h2 : h = 420 := by exact_mod_cast (show (h : ℚ) = 420 by linarith)
           subst h2
           norm_num [normalizar_altura, minimoPorClave, RESOLUCIONES_NORMALIZADAS, mejorPaso, pyAbs])
        | (have h2 : h = 600 := by exact_mod_cast (show (h : ℚ) = 600 by linarith)
           subst h2
           norm_num [normalizar_altura, minimoPorClave, RESOLUCIONES_NORMALIZADAS, mejorPaso, pyAbs])
        | (have h2 : h = 900 := by exact_mod_cast (show (h : ℚ) = 900 by linarith)
           subst h2
           norm_num [normalizar_altura, minimoPorClave, RESOLUCIONES_NORMALIZADAS, mejorPaso, pyAbs])
        | (have h2 : h = 1260 := by exact_mod_cast (show (h : ℚ) = 1260 by linarith)
           subst h2
           norm_num [normalizar_altura, minimoPorClave, RESOLUCIONES_NORMALIZADAS, mejorPaso, pyAbs])
        | (have h2 : h = 1800 := by exact_mod_cast (show (h : ℚ) = 1800 by linarith)
           subst h2
           norm_num [normalizar_altura, minimoPorClave, RESOLUCIONES_NORMALIZADAS, mejorPaso, pyAbs])
        | (have h2 : h = 3240 := by exact_mod_cast (show (h : ℚ) = 3240 by linarith)
           subst h2
           norm_num [normalizar_altura, minimoPorClave, RESOLUCIONES_NORMALIZADAS, mejorPaso, pyAbs])
  · intro f a b hpos hmem heq
    have hzip : FPS_NORMALIZADOS.zip FPS_NORMALIZADOS.tail =
        [(24, 25), (25, 30), (30, 50), (50, 60)] := rfl
    rw [hzip] at hmem
    simp only [List.mem_cons, List.not_mem_nil, or_false, Prod.mk.injEq] at hmem
    rcases hmem with hp | hp | hp | hp <;>
      obtain ⟨rfl, rfl⟩ := hp <;>
      rcases abs_eq_abs.mp heq with h1 | h1 <;>
      push_cast at h1 <;>
      first
        | (exfalso; linarith)
        | (have h2 : f = 49/2 := by linarith
           subst h2
           norm_num [normalizar_fps, minimoPorClave, FPS_NORMALIZADOS, mejorPaso, pyAbs])
        | (have h2 : f = 55/2 := by linarith
           subst h2
           norm_num [normalizar_fps, minimoPorClave, FPS_NORMALIZADOS, mejorPaso, pyAbs])
        | (have h2 : f = 40 := by linarith
           subst h2
           norm_num [normalizar_fps, minimoPorClave, FPS_NORMALIZADOS, mejorPaso, pyAbs])
        | (have h2 : f = 55 := by linarith
           subst h2
           norm_num [normalizar_fps, minimoPorClave, FPS_NORMALIZADOS, mejorPaso, pyAbs])

/-- Witness for `C10_empate_redondeo_al_menor`: height `192` (tie between
`144` and `240`) snaps to `144`; fps `27.5` (tie between `25` and `30`)
snaps to `25`. -/
theorem C10_empate_redondeo_al_menor_witness :
    normalizar_altura 192 = some 144 ∧ normalizar_fps (27.5 : ℚ) = some 25 :=
  ⟨C10_empate_redondeo_al_menor.1 192 144 240 (by norm_num) (by decide) (by norm_num),
   C10_empate_redondeo_al_menor.2 (27.5 : ℚ) 25 30 (by norm_num) (by decide) (by norm_num)⟩

/-- **C3** The bucket aggregator computes its statistics over exactly the
defined `mb_por_minuto` values (in order); the median is the standard median
of the ascending sort (undefined for the empty list), the MAD is the median
of the absolute deviations from that median (undefined when the median is),
and the population standard deviation is defined exactly when there are at
least two samples.  For `[2, 3, 4]` the median is `3` and the MAD is `1`. -/
theorem C3_estadisticas_bucket :
    (∀ (bucket_id : String) (videos : List VideoAnaliticaDTO),
      (calcular_metricas_bucket bucket_id videos).mediana_mb_min =
        mediana (videos.filterMap (fun video => video.mb_por_minuto)) ∧
      (calcular_metricas_bucket bucket_id videos).mad_mb_min =
        mad (videos.filterMap (fun video => video.mb_por_minuto))
          (mediana (videos.filterMap (fun video => video.mb_por_minuto))) ∧
      (calcular_metricas_bucket bucket_id videos).desviacion_std_mb_min =
        desviacion_std (videos.filterMap (fun video => video.mb_por_minuto))) ∧
    mediana ([] : List ℚ) = none ∧
    (∀ valores : List ℚ, valores ≠ [] →
      (valores.insertionSort (· ≤ ·)).Perm valores ∧
      (valores.insertionSort (· ≤ ·)).Sorted (· ≤ ·) ∧
      (valores.length % 2 = 1 →
        mediana valores = some ((valores.insertionSort (· ≤ ·)).getD (valores.length / 2) 0)) ∧
      (valores.length % 2 = 0 →
        mediana valores = some
          (((valores.insertionSort (· ≤ ·)).getD (valores.length / 2 - 1) 0 +
            (valores.insertionSort (· ≤ ·)).getD (valores.length / 2) 0) / 2))) ∧
    (∀ (valores : List ℚ) (m : ℚ), mediana valores = some m →
      mad valores (mediana valores) = mediana (valores.map (fun v => |v - m|))) ∧
    (∀ valores : List ℚ, mediana valores = none → mad valores (mediana valores) = none) ∧
    (∀ valores : List ℚ, (desviacion_std valores).isSome ↔ 2 ≤ valores.length) ∧
    mediana [2, 3, 4] = some 3 ∧
    mad [2, 3, 4] (mediana [2, 3, 4]) = some 1 := by
  refine ⟨?_, rfl, ?_, ?_, ?_, ?_, by decide, ?_⟩
  · intro bucket_id videos
    exact ⟨rfl, rfl, rfl⟩
  · intro valores hne
    have hlen : (valores.insertionSort (· ≤ ·)).length = valores.length :=
      (List.perm_insertionSort _ _).length_eq
    refine ⟨List.perm_insertionSort _ _, List.sorted_insertionSort _ _, ?_, ?_⟩
    · intro hodd
      unfold mediana
      rw [if_neg hne]
      simp only [hlen, hodd]
      rfl
    · intro heven
      unfold mediana
      rw [if_neg hne]
      simp only [hlen, heven]
      norm_num
  · intro valores m hm
    have hne : valores ≠ [] := by
      intro h'
      subst h'
      simp [mediana] at hm
    unfold mad
    rw [if_neg hne, hm]
    show mediana (valores.map (fun v => pyAbs (v - m))) = _
    simp only [pyAbs_eq_abs]
  · intro valores hm
    unfold mad
    by_cases hne : valores = []
    · rw [if_pos hne]
    · rw [if_neg hne, hm]
  · intro valores
    unfold desviacion_std
    by_cases hlt : valores.length < 2
    · simp [hlt]
    · have hne : valores ≠ [] := by
        intro h'
        subst h'
        simp at hlt
      simp [hlt, promedio, hne]
      omega
  · have h3 : mediana [2, 3, 4] = some (3 : ℚ) := by decide
    rw [h3]
    unfold mad
    rw [if_neg (by decide)]
    show mediana (([2, 3, 4] : List ℚ).map (fun v => pyAbs (v - 3))) = some 1
    have hmap : ([2, 3, 4] : List ℚ).map (fun v => pyAbs (v - 3)) = [1, 0, 1] := by
      norm_num [pyAbs]
    rw [hmap]
    decide

/-- Witness for `C3_estadisticas_bucket` at the concrete list `[2, 3, 4]`. -/
theorem C3_estadisticas_bucket_witness :
    mediana [2, 3, 4] = some ((([2, 3, 4] : List ℚ).insertionSort (· ≤ ·)).getD 1 0) ∧
    mad [2, 3, 4] (mediana [2, 3, 4]) = mediana (([2, 3, 4] : List ℚ).map (fun v => |v - 3|)) := by
  constructor
  · simpa using (C3_estadisticas_bucket.2.2.1 [2, 3, 4] (by decide)).2.2.1 (by decide)
  · exact C3_estadisticas_bucket.2.2.2.1 [2, 3, 4] 3 (by decide)

end MetricasVideos

namespace Evaluador

/-- **C4 counterexample** A `maximo` rule with threshold `0`, evaluated at
`5`: the verdict is `false` (fail) yet `diferencia_pct` is the numeric
placeholder `0.0`, not the undefined value the claim requires. -/
theorem C4_contraejemplo_umbral_cero :
    (evaluar ⟨"k", "d", "u", "maximo", .num 0⟩ (some 5)).toOption.map
      (fun e => (e.ok, e.diferencia_pct)) = some (some false, some 0) ∧
    (some (0 : ℚ) : Option ℚ) ≠ (none : Option ℚ) := by
  constructor
  · rfl
  · simp

/-- **C4 (amended)** In `maximo` mode the verdict is pass exactly when
`value ≤ threshold`; on failure the percentage-over is
`|value − threshold| / threshold * 100` when the threshold is positive, but
when the threshold is `0` (or negative) the deviation field carries the
numeric placeholder `0.0` — the same value used on a pass — rather than
being undefined.  `minimo` mode is symmetric. -/
theorem C4_maximo_minimo_desviacion :
    ∀ (regla : ReglaMetrica) (v limite : ℚ),
      regla.recomendado = Recomendado.num limite →
      ((regla.comparacion = "maximo" →
        (evaluar regla (some v)).toOption.map (fun e => (e.ok, e.diferencia_pct)) =
          some (some (decide (v ≤ limite)),
            some (if ¬(v ≤ limite) ∧ 0 < limite then |v - limite| / limite * 100 else 0))) ∧
       (regla.comparacion = "minimo" →
        (evaluar regla (some v)).toOption.map (fun e => (e.ok, e.diferencia_pct)) =
          some (some (decide (limite ≤ v)),
            some (if ¬(limite ≤ v) ∧ 0 < limite then |v - limite| / limite * 100 else 0)))) := by
  intro regla v limite hrec
  constructor
  · intro hcomp
    simp only [evaluar, formato_recomendado, comoFloat, calc_diff_pct, hrec, hcomp,
      reduceCtorEq, if_false, bind, Except.bind, pure, Except.pure, if_true,
      Except.toOption, Option.map_some, decide_eq_false_iff_not]
    by_cases hok : v ≤ limite
    · simp [hok]
    · by_cases hlim : 0 < limite
      · have : limite ≠ 0 := ne_of_gt hlim
        simp [hok, hlim, this]
      · simp [hok, hlim]
  · intro hcomp
    simp only [evaluar, formato_recomendado, comoFloat, calc_diff_pct, hrec, hcomp,
      reduceCtorEq, if_false, bind, Except.bind, pure, Except.pure, if_true,
      Except.toOption, Option.map_some, decide_eq_false_iff_not]
    by_cases hok : limite ≤ v
    · simp [hok]
    · by_cases hlim : 0 < limite
      · have : limite ≠ 0 := ne_of_gt hlim
        simp [hok, hlim, this]
      · simp [hok, hlim]

/-- Witness for `C4_maximo_minimo_desviacion` at threshold `0`, value `5`. -/
theorem C4_maximo_minimo_desviacion_witness :
    (evaluar ⟨"k", "d", "u", "maximo", .num 0⟩ (some 5)).toOption.map
      (fun e => (e.ok, e.diferencia_pct)) =
    some (some (decide ((5 : ℚ) ≤ 0)),
      some (if ¬((5 : ℚ) ≤ 0) ∧ (0 : ℚ) < 0 then |(5 : ℚ) - 0| / 0 * 100 else 0)) :=
  (C4_maximo_minimo_desviacion ⟨"k", "d", "u", "maximo", .num 0⟩ 5 0 rfl).1 rfl

/-- **C5 counterexample** A rule in `rango` mode whose bounds are the single
number `5` is constructed without any failure (the frozen dataclass performs
no validation), yet its very first `evaluar` call raises — both with a value
and with `None` (the recommendation text is formatted before the
missing-value early return). -/
theorem C5_contraejemplo_rango_sin_limites :
    evaluar ⟨"k", "d", "u", "rango", .num 5⟩ (some 1) =
      .error "TypeError: cannot unpack non-iterable float" ∧
    evaluar ⟨"k", "d", "u", "rango", .num 5⟩ none =
      .error "TypeError: cannot unpack non-iterable float" :=
  ⟨rfl, rfl⟩

/-- **C5 (amended)** Rule construction performs no validation and never
fails; a rule configured with `rango` mode but a single-number bound raises
`TypeError` on every per-video `evaluar` call (so the failure surfaces at
evaluation time, not at construction); for well-formed rules — `maximo` or
`minimo` with a numeric bound, `rango` with a pair of bounds — `evaluar`
never raises. -/
theorem C5_rango_falla_en_evaluacion :
    (∀ (regla : ReglaMetrica) (q : ℚ) (x : Option ℚ),
      regla.comparacion = "rango" → regla.recomendado = Recomendado.num q →
      evaluar regla x = .error "TypeError: cannot unpack non-iterable float") ∧
    (∀ (regla : ReglaMetrica) (x : Option ℚ) (limite : ℚ),
      (regla.comparacion = "maximo" ∨ regla.comparacion = "minimo") →
      regla.recomendado = Recomendado.num limite →
      (evaluar regla x).toOption.isSome = true) ∧
    (∀ (regla : ReglaMetrica) (x : Option ℚ) (a b : ℚ),
      regla.comparacion = "rango" → regla.recomendado = Recomendado.rango a b →
      (evaluar regla x).toOption.isSome = true) := by
  refine ⟨?_, ?_, ?_⟩
  · intro regla q x hcomp hrec
    simp only [evaluar, formato_recomendado, as_rango, hcomp, hrec, if_true,
      ne_eq, not_true_eq_false, if_false, bind, Except.bind]
  · intro regla x limite hcomp hrec
    have hnr : regla.comparacion ≠ "rango" := by
      rcases hcomp with h | h <;> rw [h] <;> decide
    cases x with
    | none =>
      simp [evaluar, formato_recomendado, comoFloat, hnr, hrec, bind, Except.bind,
        pure, Except.pure, Except.toOption]
    | some v =>
      rcases hcomp with h | h <;>
        simp [evaluar, formato_recomendado, comoFloat, hnr, hrec, h, bind, Except.bind,
          pure, Except.pure, Except.toOption]
  · intro regla x a b hcomp hrec
    cases x with
    | none =>
      simp [evaluar, formato_recomendado, as_rango, hcomp, hrec, bind, Except.bind,
        pure, Except.pure, Except.toOption]
    | some v =>
      simp only [evaluar, formato_recomendado, as_rango, hcomp, hrec, if_true,
        ne_eq, not_true_eq_false, if_false, bind, Except.bind, pure, Except.pure,
        reduceCtorEq]
      split_ifs <;> simp_all [Except.toOption]

/-- Witness for `C5_rango_falla_en_evaluacion` at concrete rules. -/
theorem C5_rango_falla_en_evaluacion_witness :
    evaluar ⟨"k", "d", "u", "rango", .num 5⟩ (some 1) =
      .error "TypeError: cannot unpack non-iterable float" ∧
    (evaluar ⟨"k", "d", "u", "maximo", .num 2⟩ (some 1)).toOption.isSome = true ∧
    (evaluar ⟨"k", "d", "u", "rango", .rango 1 8⟩ (some 5)).toOption.isSome = true :=
  ⟨C5_rango_falla_en_evaluacion.1 ⟨"k", "d", "u", "rango", .num 5⟩ 5 (some 1) rfl rfl,
   C5_rango_falla_en_evaluacion.2.1 ⟨"k", "d", "u", "maximo", .num 2⟩ (some 1) 2
     (Or.inl rfl) rfl,
   C5_rango_falla_en_evaluacion.2.2 ⟨"k", "d", "u", "rango", .rango 1 8⟩ (some 5) 1 8
     rfl rfl⟩

end Evaluador

namespace MetricasVideos

/-- Flags are untouched by the `ratio_vs_promedio_bucket` update. -/
theorem tieneFlag_ratio (v : VideoAnaliticaDTO) (r : Option ℚ) (g : String) :
    tieneFlag { v with ratio_vs_promedio_bucket := r } g ↔ tieneFlag v g :=
  Iff.rfl

/-- Characterisation of one `marcar_outliers` loop iteration (with the
small-bucket flag already handled), in terms of the claim's hypotheses:
a defined value, a positive median, and the positive robust denominator
`1.4826 * MAD`. -/
theorem procesar_video_outlier_spec
    (med mad_v valor suave fuerte : ℚ) (w : VideoAnaliticaDTO)
    (hmb : w.mb_por_minuto = some valor) (hmed : 0 < med) (hmad : 0 < mad_v) :
    (fuerte ≤ |(valor - med) / (MAD_FACTOR * mad_v)| →
      tieneFlag (procesar_video_outlier (some med) (some (MAD_FACTOR * mad_v))
        suave fuerte false w).1 "OUTLIER_FUERTE" ∧
      (procesar_video_outlier (some med) (some (MAD_FACTOR * mad_v))
        suave fuerte false w).2 = [w.archivo.ruta]) ∧
    (|(valor - med) / (MAD_FACTOR * mad_v)| < fuerte →
      suave ≤ |(valor - med) / (MAD_FACTOR * mad_v)| →
      tieneFlag (procesar_video_outlier (some med) (some (MAD_FACTOR * mad_v))
        suave fuerte false w).1 "OUTLIER_SUAVE" ∧
      (procesar_video_outlier (some med) (some (MAD_FACTOR * mad_v))
        suave fuerte false w).2 = [w.archivo.ruta]) ∧
    (|(valor - med) / (MAD_FACTOR * mad_v)| < fuerte →
      |(valor - med) / (MAD_FACTOR * mad_v)| < suave →
      ((tieneFlag (procesar_video_outlier (some med) (some (MAD_FACTOR * mad_v))
          suave fuerte false w).1 "OUTLIER_FUERTE" ↔ tieneFlag w "OUTLIER_FUERTE") ∧
       (tieneFlag (procesar_video_outlier (some med) (some (MAD_FACTOR * mad_v))
          suave fuerte false w).1 "OUTLIER_SUAVE" ↔ tieneFlag w "OUTLIER_SUAVE") ∧
       (procesar_video_outlier (some med) (some (MAD_FACTOR * mad_v))
          suave fuerte false w).2 = [])) ∧
    ¬((tieneFlag (procesar_video_outlier (some med) (some (MAD_FACTOR * mad_v))
        suave fuerte false w).1 "OUTLIER_FUERTE" ∧ ¬tieneFlag w "OUTLIER_FUERTE") ∧
      (tieneFlag (procesar_video_outlier (some med) (some (MAD_FACTOR * mad_v))
        suave fuerte false w).1 "OUTLIER_SUAVE" ∧ ¬tieneFlag w "OUTLIER_SUAVE")) := by
  have hz := pyAbs_eq_abs ((valor - med) / (MAD_FACTOR * mad_v))
  unfold procesar_video_outlier
  simp only [Bool.false_eq_true, if_false, hmb]
  rw [if_neg (not_le.mpr hmed)]
  simp only [hz]
  split_ifs with h1 h2
  · refine ⟨fun _ => ⟨(tieneFlag_agregar _ _ _).mpr (Or.inl rfl), rfl⟩,
      fun hlt _ => absurd h1 (not_le.mpr hlt),
      fun hlt _ => absurd h1 (not_le.mpr hlt), ?_⟩
    rintro ⟨⟨-, -⟩, ⟨hS, hnS⟩⟩
    rw [tieneFlag_agregar] at hS
    rcases hS with h | h
    · exact absurd h (by decide)
    · exact hnS h
  · refine ⟨fun hge => absurd hge h1, fun _ _ => ⟨(tieneFlag_agregar _ _ _).mpr (Or.inl rfl), rfl⟩,
      fun _ hlt => absurd h2 (not_le.mpr hlt), ?_⟩
    rintro ⟨⟨hF, hnF⟩, ⟨-, -⟩⟩
    rw [tieneFlag_agregar] at hF
    rcases hF with h | h
    · exact absurd h (by decide)
    · exact hnF h
  · refine ⟨fun hge => absurd hge h1, fun _ hge => absurd hge h2,
      fun _ _ => ⟨Iff.rfl, Iff.rfl, rfl⟩, ?_⟩
    rintro ⟨⟨hF, hnF⟩, -⟩
    exact hnF hF

/-- **C2** Outlier flagging with the robust z-score.  Under the claim's
hypotheses (defined value, defined positive median, defined positive MAD so
that the denominator `1.4826 * MAD` is defined and positive), a video gets
`OUTLIER_FUERTE` (spec: `OUTLIER_STRONG`) and its identifier appended when
`|z| ≥ hard_z`, else `OUTLIER_SUAVE` (spec: `OUTLIER_SOFT`) and appended
when `|z| ≥ soft_z`, else neither flag; at most one of the two flags is
received in one run; and `marcar_outliers` processes videos and appends
identifiers in the caller's input order, extending the existing list. -/
theorem C2_marcar_outliers_robusto :
    (∀ (med mad_v valor suave fuerte : ℚ) (pequeno : Bool) (video : VideoAnaliticaDTO),
      video.mb_por_minuto = some valor → 0 < med → 0 < mad_v →
      (fuerte ≤ |(valor - med) / (MAD_FACTOR * mad_v)| →
        tieneFlag (procesar_video_outlier (some med) (some (MAD_FACTOR * mad_v))
          suave fuerte pequeno video).1 "OUTLIER_FUERTE" ∧
        (procesar_video_outlier (some med) (some (MAD_FACTOR * mad_v))
          suave fuerte pequeno video).2 = [video.archivo.ruta]) ∧
      (|(valor - med) / (MAD_FACTOR * mad_v)| < fuerte →
        suave ≤ |(valor - med) / (MAD_FACTOR * mad_v)| →
        tieneFlag (procesar_video_outlier (some med) (some (MAD_FACTOR * mad_v))
          suave fuerte pequeno video).1 "OUTLIER_SUAVE" ∧
        (procesar_video_outlier (some med) (some (MAD_FACTOR * mad_v))
          suave fuerte pequeno video).2 = [video.archivo.ruta]) ∧
      (|(valor - med) / (MAD_FACTOR * mad_v)| < fuerte →
        |(valor - med) / (MAD_FACTOR * mad_v)| < suave →
        ((tieneFlag (procesar_video_outlier (some med) (some (MAD_FACTOR * mad_v))
            suave fuerte pequeno video).1 "OUTLIER_FUERTE" ↔
          tieneFlag video "OUTLIER_FUERTE") ∧
         (tieneFlag (procesar_video_outlier (some med) (some (MAD_FACTOR * mad_v))
            suave fuerte pequeno video).1 "OUTLIER_SUAVE" ↔
          tieneFlag video "OUTLIER_SUAVE") ∧
         (procesar_video_outlier (some med) (some (MAD_FACTOR * mad_v))
            suave fuerte pequeno video).2 = [])) ∧
      ¬((tieneFlag (procesar_video_outlier (some med) (some (MAD_FACTOR * mad_v))
          suave fuerte pequeno video).1 "OUTLIER_FUERTE" ∧
         ¬tieneFlag video "OUTLIER_FUERTE") ∧
        (tieneFlag (procesar_video_outlier (some med) (some (MAD_FACTOR * mad_v))
          suave fuerte pequeno video).1 "OUTLIER_SUAVE" ∧
         ¬tieneFlag video "OUTLIER_SUAVE"))) ∧
    (∀ (resumen : BucketResumenDTO) (d : ℚ),
      resumen.mad_mb_min = some d → 0 < d →
      denominadorDe resumen = some (MAD_FACTOR * d) ∧ (0 : ℚ) < MAD_FACTOR * d) ∧
    (∀ (videos : List VideoAnaliticaDTO) (resumen : BucketResumenDTO)
      (umbrales : UmbralesOutliers), videos ≠ [] →
      marcar_outliers videos resumen umbrales =
        ((videos.map (procesar_video_outlier resumen.mediana_mb_min (denominadorDe resumen)
            (umbralSuaveDe umbrales) (umbralFuerteDe umbrales)
            (pequenoDe resumen umbrales))).map Prod.fst,
         { resumen with videos_outliers := resumen.videos_outliers ++
             ((videos.map (procesar_video_outlier resumen.mediana_mb_min
               (denominadorDe resumen) (umbralSuaveDe umbrales) (umbralFuerteDe umbrales)
               (pequenoDe resumen umbrales))).map Prod.snd).flatten })) := by
  refine ⟨?_, ?_, ?_⟩
  · intro med mad_v valor suave fuerte pequeno video hmb hmed hmad
    cases pequeno with
    | false => exact procesar_video_outlier_spec med mad_v valor suave fuerte video hmb hmed hmad
    | true =>
      have hmb' : (agregar_flag video "BUCKET_PEQUENO").mb_por_minuto = some valor := by
        simpa [agregar_flag_fields] using hmb
      have hbase := procesar_video_outlier_spec med mad_v valor suave fuerte
        (agregar_flag video "BUCKET_PEQUENO") hmb' hmed hmad
      have heq : procesar_video_outlier (some med) (some (MAD_FACTOR * mad_v))
          suave fuerte true video =
          procesar_video_outlier (some med) (some (MAD_FACTOR * mad_v))
            suave fuerte false (agregar_flag video "BUCKET_PEQUENO") := rfl
      rw [heq]
      have hruta : (agregar_flag video "BUCKET_PEQUENO").archivo = video.archivo := rfl
      have hF : tieneFlag (agregar_flag video "BUCKET_PEQUENO") "OUTLIER_FUERTE" ↔
          tieneFlag video "OUTLIER_FUERTE" := by
        rw [tieneFlag_agregar]; simp
      have hS : tieneFlag (agregar_flag video "BUCKET_PEQUENO") "OUTLIER_SUAVE" ↔
          tieneFlag video "OUTLIER_SUAVE" := by
        rw [tieneFlag_agregar]; simp
      obtain ⟨b1, b2, b3, b4⟩ := hbase
      refine ⟨fun h => by simpa [hruta] using b1 h,
        fun h h' => by simpa [hruta] using b2 h h',
        fun h h' => ?_, fun hcon => ?_⟩
      · obtain ⟨c1, c2, c3⟩ := b3 h h'
        exact ⟨c1.trans hF, c2.trans hS, c3⟩
      · exact b4 ⟨⟨hcon.1.1, fun hv => hcon.1.2 (hF.mp hv)⟩,
          ⟨hcon.2.1, fun hv => hcon.2.2 (hS.mp hv)⟩⟩
  · intro resumen d hmadv hd
    refine ⟨by simp [denominadorDe, hmadv, hd], ?_⟩
    have hMF : (0 : ℚ) < MAD_FACTOR := by norm_num [MAD_FACTOR]
    exact mul_pos hMF hd
  · intro videos resumen umbrales hne
    unfold marcar_outliers
    rw [if_neg hne]

/-- Witness for `C2_marcar_outliers_robusto`: median `3`, MAD `1`, value `9`
(`z = 6 / 1.4826 ≈ 4.05 ≥ 3`) flags `OUTLIER_FUERTE` and appends the path. -/
theorem C2_marcar_outliers_robusto_witness :
    tieneFlag (procesar_video_outlier (some 3) (some (MAD_FACTOR * 1)) 2 3 false
      { videoEjemplo 180 with mb_por_minuto := some 9 }).1 "OUTLIER_FUERTE" ∧
    (procesar_video_outlier (some 3) (some (MAD_FACTOR * 1)) 2 3 false
      { videoEjemplo 180 with mb_por_minuto := some 9 }).2 = ["video.mp4"] := by
  have h := (C2_marcar_outliers_robusto.1 3 1 9 2 3 false
    { videoEjemplo 180 with mb_por_minuto := some 9 } rfl (by norm_num) (by norm_num)).1
  have habs : ((3 : ℚ)) ≤ |((9 : ℚ) - 3) / (MAD_FACTOR * 1)| := by
    rw [abs_of_nonneg (by norm_num [MAD_FACTOR])]
    norm_num [MAD_FACTOR]
  exact h habs

end MetricasVideos

namespace MetricasVideos

/-- Adding a flag that is already present is a no-op. -/
theorem addFlag_of_mem (o : Option (List String)) (f : String)
    (h : f ∈ o.getD []) : addFlag o f = o := by
  cases o with
  | none => simp at h
  | some fs =>
    simp only [Option.getD_some] at h
    simp [addFlag, h]

/-- The added flag is present afterwards. -/
theorem mem_addFlag_self (o : Option (List String)) (f : String) :
    f ∈ (addFlag o f).getD [] := by
  cases o with
  | none => simp [addFlag]
  | some fs => by_cases h : f ∈ fs <;> simp [addFlag, h]

/-- Present flags stay present. -/
theorem mem_addFlag_mono (o : Option (List String)) (f g : String)
    (h : g ∈ o.getD []) : g ∈ (addFlag o f).getD [] := by
  cases o with
  | none => simp at h
  | some fs =>
    simp only [Option.getD_some] at h
    by_cases hf : f ∈ fs <;> simp [addFlag, hf, h]

/-- Present flags survive a whole `addFlags` pass. -/
theorem mem_addFlags_mono (l : List String) (o : Option (List String)) (g : String)
    (h : g ∈ o.getD []) : g ∈ (addFlags o l).getD [] := by
  induction l generalizing o with
  | nil => exact h
  | cons x xs ih => simpa [addFlags] using ih (addFlag o x) (mem_addFlag_mono o x g h)

/-- Every flag of the list is present after `addFlags`. -/
theorem mem_addFlags_of_mem (l : List String) (o : Option (List String)) (f : String)
    (h : f ∈ l) : f ∈ (addFlags o l).getD [] := by
  induction l generalizing o with
  | nil => simp at h
  | cons x xs ih =>
    rcases List.mem_cons.mp h with rfl | h'
    · simpa [addFlags] using mem_addFlags_mono xs (addFlag o f) f (mem_addFlag_self o f)
    · simpa [addFlags] using ih (addFlag o x) h'

/-- `addFlags` is a no-op when every flag of the list is already present. -/
theorem addFlags_of_all_mem (l : List String) (o : Option (List String))
    (h : ∀ f ∈ l, f ∈ o.getD []) : addFlags o l = o := by
  induction l with
  | nil => rfl
  | cons x xs ih =>
    show (x :: xs).foldl addFlag o = o
    rw [List.foldl_cons, addFlag_of_mem o x (h x (by simp))]
    exact ih (fun f hf => h f (by simp [hf]))

/-- Re-adding the same flag list is a no-op. -/
theorem addFlags_idem (o : Option (List String)) (l : List String) :
    addFlags (addFlags o l) l = addFlags o l :=
  addFlags_of_all_mem l _ (fun f hf => mem_addFlags_of_mem l o f hf)

/-- `_agregar_flag` never introduces a duplicate. -/
theorem addFlag_nodup (o : Option (List String)) (f : String)
    (h : (o.getD []).Nodup) : ((addFlag o f).getD []).Nodup := by
  cases o with
  | none => simp [addFlag]
  | some fs =>
    simp only [Option.getD_some] at h
    by_cases hf : f ∈ fs
    · simp [addFlag, hf, h]
    · simp only [addFlag, hf, if_false, Option.getD_some]
      refine List.Nodup.append h (List.nodup_singleton f) ?_
      intro a ha hb
      simp only [List.mem_singleton] at hb
      subst hb
      exact hf ha

/-- `addFlags` preserves duplicate-freeness. -/
theorem addFlags_nodup (l : List String) (o : Option (List String))
    (h : (o.getD []).Nodup) : ((addFlags o l).getD []).Nodup := by
  induction l generalizing o with
  | nil => exact h
  | cons x xs ih => simpa [addFlags] using ih (addFlag o x) (addFlag_nodup o x h)

/-- The bucket classifier reads only the video stream fields. -/
theorem resolver_solo_stream (v w : VideoAnaliticaDTO)
    (h : w.stream_video = v.stream_video) :
    resolver_bucket_resolucion w = resolver_bucket_resolucion v := by
  simp only [resolver_bucket_resolucion, h]

/-- `flagsDerivados` reads only the raw fields. -/
theorem flagsDerivados_raw (v w : VideoAnaliticaDTO)
    (h1 : w.archivo = v.archivo) (h2 : w.stream_video = v.stream_video)
    (h3 : w.streams_audio = v.streams_audio) :
    flagsDerivados w = flagsDerivados v := by
  simp only [flagsDerivados, h1, h2, h3]

/-- `addFlags` over an appended list is sequential. -/
theorem addFlags_append (o : Option (List String)) (l1 l2 : List String) :
    addFlags o (l1 ++ l2) = addFlags (addFlags o l1) l2 := by
  simp [addFlags, List.foldl_append]

/-- Normal form of `_aplicar_contexto_duracion`: category set, and `addFlags`
of the (possibly empty) duration-flag list. -/
theorem aplicar_contexto_eq (v : VideoAnaliticaDTO) :
    aplicar_contexto_duracion v = { v with
      duracion_categoria := some (calcular_duracion_categoria v.stream_video.duracion_seg)
      flags_contexto := addFlags v.flags_contexto
        (if v.stream_video.duracion_seg ≤ 0 then []
         else if v.stream_video.duracion_seg < 10 then ["MUY_CORTO"]
         else if v.stream_video.duracion_seg < 30 then ["DURACION_CORTA"]
         else []) } := by
  simp only [aplicar_contexto_duracion, agregar_flag]
  split_ifs <;> rfl

/-- Normal form of `_actualizar_flags_bitrate`. -/
theorem actualizar_flags_eq (v : VideoAnaliticaDTO) (fuente : String) :
    actualizar_flags_bitrate v fuente = { v with
      flags_contexto := addFlags v.flags_contexto
        ((if fuente = "componentes" ∨ fuente = "tamano" ∨ fuente = "none" then
            ["BITRATE_CONTAINER_FALTANTE"]
          else []) ++
         (if fuente = "tamano" then ["ESTIMACION_BITRATE"] else [])) } := by
  simp only [actualizar_flags_bitrate, agregar_flag]
  split_ifs <;> rfl

/-- Normal form of a conditional `_agregar_flag`. -/
theorem agregar_flag_si_eq (v : VideoAnaliticaDTO) (b : Bool) (f : String) :
    (if b then agregar_flag v f else v) = { v with
      flags_contexto := addFlags v.flags_contexto (if b then [f] else []) } := by
  cases b <;> rfl

/-- Normal form of one metric-derivation pass: every derived field is a pure
function of the raw fields, the flag field is `addFlags` of the pass's flag
list, and the raw fields and `ratio_vs_promedio_bucket` are untouched. -/
theorem calcular_metricas_video_eq (video : VideoAnaliticaDTO) :
    calcular_metricas_video video = { video with
      mb_por_minuto := calcular_mb_por_minuto video.archivo.size_bytes
        (some video.stream_video.duracion_seg)
      duracion_categoria := some (calcular_duracion_categoria video.stream_video.duracion_seg)
      bitrate_total_estimado := (calcular_bitrate_total_estimado
        video.stream_video.bitrate_container_bps video.stream_video.bitrate_bps
        video.streams_audio video.archivo.size_bytes
        (some video.stream_video.duracion_seg)).1
      flags_contexto := addFlags video.flags_contexto (flagsDerivados video)
      bits_por_pixel_frame := calcular_bits_por_pixel_frame video.stream_video.bitrate_bps
        video.stream_video.width video.stream_video.height video.stream_video.fps
      kbps_total := calcular_kbps (calcular_bitrate_total_estimado
        video.stream_video.bitrate_container_bps video.stream_video.bitrate_bps
        video.streams_audio video.archivo.size_bytes
        (some video.stream_video.duracion_seg)).1
      kbps_video := calcular_kbps video.stream_video.bitrate_bps
      audio_share_pct := calcular_audio_share_pct video.streams_audio
        (calcular_bitrate_total_estimado
          video.stream_video.bitrate_container_bps video.stream_video.bitrate_bps
          video.streams_audio video.archivo.size_bytes
          (some video.stream_video.duracion_seg)).1
      bucket_resolucion_fps := resolver_bucket_resolucion video } := by
  simp only [calcular_metricas_video]
  rw [aplicar_contexto_eq, actualizar_flags_eq, agregar_flag_si_eq, agregar_flag_si_eq]
  simp only [flagsDerivados, addFlags_append]
  rfl

end MetricasVideos

namespace MetricasVideos

/-- One pass leaves the raw fields and the bucket-stage ratio untouched. -/
theorem calcular_metricas_video_raw (video : VideoAnaliticaDTO) :
    (calcular_metricas_video video).archivo = video.archivo ∧
    (calcular_metricas_video video).stream_video = video.stream_video ∧
    (calcular_metricas_video video).streams_audio = video.streams_audio ∧
    (calcular_metricas_video video).ratio_vs_promedio_bucket =
      video.ratio_vs_promedio_bucket := by
  rw [calcular_metricas_video_eq]
  exact ⟨rfl, rfl, rfl, rfl⟩

/-- **C7** The metric calculator is idempotent: a second derivation pass on an
already-enriched record (raw fields untouched by the first pass) returns the
record unchanged — in particular the context-flag list gains no entry and
therefore no duplicate; moreover a pass never introduces duplicates into a
duplicate-free flag list. -/
theorem C7_idempotencia_metricas :
    (∀ videos : List VideoAnaliticaDTO,
      calcular_metricas_derivadas (calcular_metricas_derivadas videos) =
        calcular_metricas_derivadas videos) ∧
    (∀ video : VideoAnaliticaDTO,
      calcular_metricas_video (calcular_metricas_video video) =
        calcular_metricas_video video) ∧
    (∀ video : VideoAnaliticaDTO, (video.flags_contexto.getD []).Nodup →
      (((calcular_metricas_video video).flags_contexto).getD []).Nodup) := by
  have hbody : ∀ video : VideoAnaliticaDTO,
      calcular_metricas_video (calcular_metricas_video video) =
        calcular_metricas_video video := by
    intro video
    obtain ⟨h1, h2, h3, h4⟩ := calcular_metricas_video_raw video
    have hfl : (calcular_metricas_video video).flags_contexto =
        addFlags video.flags_contexto (flagsDerivados video) := by
      rw [calcular_metricas_video_eq]
    have hfd : flagsDerivados (calcular_metricas_video video) = flagsDerivados video :=
      flagsDerivados_raw video _ h1 h2 h3
    have hrb : resolver_bucket_resolucion (calcular_metricas_video video) =
        resolver_bucket_resolucion video :=
      resolver_solo_stream video _ h2
    conv_lhs => rw [calcular_metricas_video_eq]
    conv_rhs => rw [calcular_metricas_video_eq]
    simp only [h1, h2, h3, h4, hfl, hfd, hrb, addFlags_idem]
  refine ⟨?_, hbody, ?_⟩
  · intro videos
    unfold calcular_metricas_derivadas
    rw [List.map_map]
    exact List.map_congr_left fun video _ => hbody video
  · intro video hnd
    rw [calcular_metricas_video_eq]
    exact addFlags_nodup _ _ hnd

end MetricasVideos

namespace MetricasVideos

/-- Witness for `C7_idempotencia_metricas` on a concrete record. -/
theorem C7_idempotencia_metricas_witness :
    (((calcular_metricas_video (videoEjemplo 5)).flags_contexto).getD []).Nodup :=
  C7_idempotencia_metricas.2.2 (videoEjemplo 5) (by decide)

/-- Checked division succeeds on a non-zero denominator. -/
theorem qdivE_ok (a b : ℚ) (h : b ≠ 0) : qdivE a b = .ok (a / b) := by
  simp [qdivE, h]

/-- Checked indexing succeeds in range. -/
theorem getE_ok (l : List ℚ) (i : Nat) (h : i < l.length) :
    getE l i = .ok (l.getD i 0) := by
  unfold getE
  rw [List.getElem?_eq_getElem h]
  rw [List.getD_eq_getElem l 0 h]

/-- The `sqrt` domain check succeeds on a non-negative radicand. -/
theorem sqrtDominioE_ok (x : ℚ) (h : 0 ≤ x) : sqrtDominioE x = .ok x := by
  simp [sqrtDominioE, not_lt.mpr h]

/-- `mapE` succeeds when the body does on every element. -/
theorem mapE_ok (f : α → Except String β) (g : α → β) (l : List α)
    (h : ∀ a ∈ l, f a = .ok (g a)) : mapE f l = .ok (l.map g) := by
  induction l with
  | nil => rfl
  | cons x xs ih =>
    simp [mapE, h x (List.mem_cons_self x xs),
      ih (fun a ha => h a (List.mem_cons_of_mem x ha)), bind, Except.bind,
      pure, Except.pure]

/-- `calcular_mb_por_minuto` never divides by zero. -/
theorem calcular_mb_por_minutoE_ok (s : Int) (d : Option ℚ) :
    calcular_mb_por_minutoE s d = .ok (calcular_mb_por_minuto s d) := by
  cases d with
  | none => by_cases hs : s ≤ 0 <;> simp [calcular_mb_por_minutoE, calcular_mb_por_minuto, hs]
  | some q =>
    by_cases hs : s ≤ 0
    · simp [calcular_mb_por_minutoE, calcular_mb_por_minuto, hs]
    · by_cases hq : q ≤ 0
      · simp [calcular_mb_por_minutoE, calcular_mb_por_minuto, hs, hq]
      · have h60 : ((SEGUNDOS_POR_MINUTO : Int) : ℚ) ≠ 0 := by
          norm_num [SEGUNDOS_POR_MINUTO]
        have hMB : ((BYTES_POR_MB : Int) : ℚ) ≠ 0 := by
          norm_num [BYTES_POR_MB]
        simp only [calcular_mb_por_minutoE, calcular_mb_por_minuto, hs, hq, if_false,
          qdivE_ok _ _ h60, bind, Except.bind]
        by_cases hm : q / ((SEGUNDOS_POR_MINUTO : Int) : ℚ) ≤ 0
        · simp [hm, pure, Except.pure]
        · have hm' : q / ((SEGUNDOS_POR_MINUTO : Int) : ℚ) ≠ 0 :=
            fun h0 => hm (le_of_eq h0)
          simp [hm, qdivE_ok _ _ hMB, qdivE_ok _ _ hm', bind, Except.bind,
            pure, Except.pure]

/-- `calcular_bitrate_total_estimado` never divides by zero. -/
theorem calcular_bitrate_total_estimadoE_ok
    (cb bv : Option Int) (sa : Option (List AudioStreamDTO)) (sb : Int) (d : Option ℚ) :
    calcular_bitrate_total_estimadoE cb bv sa sb d =
      .ok (calcular_bitrate_total_estimado cb bv sa sb d) := by
  cases hcb : bitratePositivo cb with
  | some c => simp [calcular_bitrate_total_estimadoE, calcular_bitrate_total_estimado, hcb]
  | none =>
    by_cases hcomp : componentesBitrate bv sa ≠ []
    · simp [calcular_bitrate_total_estimadoE, calcular_bitrate_total_estimado, hcb, hcomp]
    · cases d with
      | none => simp [calcular_bitrate_total_estimadoE, calcular_bitrate_total_estimado,
          hcb, hcomp]
      | some q =>
        by_cases hpos : 0 < sb ∧ 0 < q
        · have hq : q ≠ 0 := ne_of_gt hpos.2
          simp [calcular_bitrate_total_estimadoE, calcular_bitrate_total_estimado,
            hcb, hcomp, hpos, qdivE_ok _ _ hq, bind, Except.bind, pure, Except.pure]
        · simp [calcular_bitrate_total_estimadoE, calcular_bitrate_total_estimado,
            hcb, hcomp, hpos]

/-- `_calcular_bits_por_pixel_frame` never divides by zero. -/
theorem calcular_bits_por_pixel_frameE_ok (b : Option Int) (w h : Int) (fps : ℚ) :
    calcular_bits_por_pixel_frameE b w h fps =
      .ok (calcular_bits_por_pixel_frame b w h fps) := by
  cases b with
  | none => simp [calcular_bits_por_pixel_frameE, calcular_bits_por_pixel_frame]
  | some v =>
    by_cases hv : v ≤ 0
    · simp [calcular_bits_por_pixel_frameE, calcular_bits_por_pixel_frame, hv]
    · by_cases hdim : w ≤ 0 ∨ h ≤ 0 ∨ fps ≤ 0
      · simp [calcular_bits_por_pixel_frameE, calcular_bits_por_pixel_frame, hv, hdim]
      · by_cases hden : (w : ℚ) * (h : ℚ) * fps ≤ 0
        · simp [calcular_bits_por_pixel_frameE, calcular_bits_por_pixel_frame, hv, hdim, hden]
        · have hden' : (w : ℚ) * (h : ℚ) * fps ≠ 0 := fun h0 => hden (le_of_eq h0)
          simp [calcular_bits_por_pixel_frameE, calcular_bits_por_pixel_frame, hv, hdim,
            hden, qdivE_ok _ _ hden', bind, Except.bind, pure, Except.pure]

/-- `_calcular_kbps` never divides by zero. -/
theorem calcular_kbpsE_ok (v : Option Int) :
    calcular_kbpsE v = .ok (calcular_kbps v) := by
  cases v with
  | none => simp [calcular_kbpsE, calcular_kbps]
  | some b =>
    by_cases hb : b ≤ 0
    · simp [calcular_kbpsE, calcular_kbps, hb]
    · have h1000 : (1000 : ℚ) ≠ 0 := by norm_num
      simp [calcular_kbpsE, calcular_kbps, hb, qdivE_ok _ _ h1000, bind, Except.bind,
        pure, Except.pure]

/-- `_calcular_audio_share_pct` never divides by zero. -/
theorem calcular_audio_share_pctE_ok (sa : Option (List AudioStreamDTO)) (bt : Option Int) :
    calcular_audio_share_pctE sa bt = .ok (calcular_audio_share_pct sa bt) := by
  cases bt with
  | none => simp [calcular_audio_share_pctE, calcular_audio_share_pct]
  | some b =>
    by_cases hb : b ≤ 0
    · simp [calcular_audio_share_pctE, calcular_audio_share_pct, hb]
    · cases sa with
      | none => simp [calcular_audio_share_pctE, calcular_audio_share_pct, hb]
      | some streams =>
        by_cases hs : streams = []
        · simp [calcular_audio_share_pctE, calcular_audio_share_pct, hb, hs]
        · have hb' : ((b : Int) : ℚ) ≠ 0 := by
            have : (0 : ℚ) < (b : ℚ) := by exact_mod_cast lt_of_not_le hb
            exact ne_of_gt this
          simp only [calcular_audio_share_pctE, calcular_audio_share_pct]
          rw [if_neg hb, if_neg hb, if_neg hs, if_neg hs]
          split_ifs with hap
          · rfl
          · rw [qdivE_ok _ _ hb']
            rfl

/-- `_normalizar_altura` never takes the minimum of an empty sequence. -/
theorem normalizar_alturaE_ok (h : Int) :
    normalizar_alturaE h = .ok (normalizar_altura h) := by
  by_cases hh : h ≤ 0 <;>
    simp [normalizar_alturaE, normalizar_altura, minimoPorClaveE, minimoPorClave,
      RESOLUCIONES_NORMALIZADAS, hh, bind, Except.bind, pure, Except.pure]

/-- `_normalizar_fps` never takes the minimum of an empty sequence. -/
theorem normalizar_fpsE_ok (f : ℚ) :
    normalizar_fpsE f = .ok (normalizar_fps f) := by
  by_cases hf : f ≤ 0 <;>
    simp [normalizar_fpsE, normalizar_fps, minimoPorClaveE, minimoPorClave,
      FPS_NORMALIZADOS, hf, bind, Except.bind, pure, Except.pure]

/-- The bucket classifier returns normally on every input. -/
theorem resolver_bucket_resolucionE_ok (video : VideoAnaliticaDTO) :
    resolver_bucket_resolucionE video = .ok (resolver_bucket_resolucion video) := by
  simp only [resolver_bucket_resolucionE, resolver_bucket_resolucion,
    normalizar_alturaE_ok, normalizar_fpsE_ok, bind, Except.bind]
  cases normalizar_altura video.stream_video.height <;>
    cases normalizar_fps video.stream_video.fps <;>
    simp [pure, Except.pure]

/-- `_promedio` never divides by zero. -/
theorem promedioE_ok (valores : List ℚ) :
    promedioE valores = .ok (promedio valores) := by
  by_cases hne : valores = []
  · simp [promedioE, promedio, hne]
  · have hlen : ((valores.length : Nat) : ℚ) ≠ 0 := by
      have : valores.length ≠ 0 := fun h0 => hne (List.eq_nil_of_length_eq_zero h0)
      exact_mod_cast this
    simp [promedioE, promedio, hne, qdivE_ok _ _ hlen, bind, Except.bind, pure, Except.pure]

/-- `_desviacion_std` never divides by zero nor takes `sqrt` of a negative. -/
theorem desviacion_stdE_ok (valores : List ℚ) :
    desviacion_stdE valores = .ok (desviacion_std valores) := by
  by_cases hlt : valores.length < 2
  · simp [desviacion_stdE, desviacion_std, hlt]
  · have hne : valores ≠ [] := by
      intro h0
      subst h0
      simp at hlt
    have hlen : ((valores.length : Nat) : ℚ) ≠ 0 := by
      have : valores.length ≠ 0 := fun h0 => hne (List.eq_nil_of_length_eq_zero h0)
      exact_mod_cast this
    have hprom : promedio valores = some (valores.sum / (valores.length : ℚ)) := by
      simp [promedio, hne]
    have hvar : (0 : ℚ) ≤ ((valores.map
        (fun v => (v - valores.sum / (valores.length : ℚ)) ^ 2)).sum) /
          ((valores.length : Nat) : ℚ) := by
      apply div_nonneg
      · apply List.sum_nonneg
        intro x hx
        obtain ⟨v, -, rfl⟩ := List.mem_map.mp hx
        positivity
      · positivity
    simp only [desviacion_stdE, desviacion_std, hlt, if_false, promedioE_ok, hprom,
      bind, Except.bind, qdivE_ok _ _ hlen, sqrtDominioE_ok _ hvar, pure, Except.pure]

/-- `_mediana` never indexes out of range nor divides by zero. -/
theorem medianaE_ok (valores : List ℚ) :
    medianaE valores = .ok (mediana valores) := by
  by_cases hne : valores = []
  · simp [medianaE, mediana, hne]
  · have hlen : (valores.insertionSort (· ≤ ·)).length = valores.length :=
      (List.perm_insertionSort _ _).length_eq
    have hpos : 0 < valores.length := List.length_pos.mpr hne
    have hmit : valores.length / 2 < (valores.insertionSort (· ≤ ·)).length := by
      rw [hlen]
      omega
    have hmit1 : valores.length / 2 - 1 < (valores.insertionSort (· ≤ ·)).length := by
      rw [hlen]
      omega
    have h2 : (2 : ℚ) ≠ 0 := by norm_num
    by_cases hodd : valores.length % 2 = 1
    · simp [medianaE, mediana, hne, hodd, hlen, getE_ok _ _ hmit, bind, Except.bind,
        pure, Except.pure]
    · simp [medianaE, mediana, hne, hodd, hlen, getE_ok _ _ hmit, getE_ok _ _ hmit1,
        qdivE_ok _ _ h2, bind, Except.bind, pure, Except.pure]

/-- `_mad` returns normally on every input. -/
theorem madE_ok (valores : List ℚ) (m : Option ℚ) :
    madE valores m = .ok (mad valores m) := by
  by_cases hne : valores = []
  · simp [madE, mad, hne]
  · cases m with
    | none => simp [madE, mad, hne]
    | some med => simp [madE, mad, hne, medianaE_ok]

end MetricasVideos

namespace MetricasVideos

/-- The per-video derivation pass returns normally on every input. -/
theorem calcular_metricas_videoE_ok (video : VideoAnaliticaDTO) :
    calcular_metricas_videoE video = .ok (calcular_metricas_video video) := by
  simp only [calcular_metricas_videoE, calcular_metricas_video,
    calcular_mb_por_minutoE_ok, calcular_bitrate_total_estimadoE_ok,
    calcular_bits_por_pixel_frameE_ok, calcular_kbpsE_ok, calcular_audio_share_pctE_ok,
    resolver_bucket_resolucionE_ok, bind, Except.bind, pure, Except.pure]

/-- The metric calculator returns normally on every input list. -/
theorem calcular_metricas_derivadasE_ok (videos : List VideoAnaliticaDTO) :
    calcular_metricas_derivadasE videos = .ok (calcular_metricas_derivadas videos) :=
  mapE_ok _ _ videos (fun video _ => calcular_metricas_videoE_ok video)

/-- The bucket aggregator returns normally on every input. -/
theorem calcular_metricas_bucketE_ok (bucket_id : String) (videos : List VideoAnaliticaDTO) :
    calcular_metricas_bucketE bucket_id videos =
      .ok (calcular_metricas_bucket bucket_id videos) := by
  simp only [calcular_metricas_bucketE, calcular_metricas_bucket,
    promedioE_ok, desviacion_stdE_ok, medianaE_ok, madE_ok, bind, Except.bind,
    pure, Except.pure]

/-- One outlier-loop iteration returns normally whenever the denominator it
is handed is non-zero when present (as `marcar_outliers` guarantees). -/
theorem procesar_video_outlierE_ok
    (mediana_mb denominador : Option ℚ) (suave fuerte : ℚ) (pequeno : Bool)
    (video : VideoAnaliticaDTO)
    (hden : ∀ x : ℚ, denominador = some x → x ≠ 0) :
    procesar_video_outlierE mediana_mb denominador suave fuerte pequeno video =
      .ok (procesar_video_outlier mediana_mb denominador suave fuerte pequeno video) := by
  simp only [procesar_video_outlierE, procesar_video_outlier]
  cases hmb : (if pequeno then agregar_flag video "BUCKET_PEQUENO" else video).mb_por_minuto with
  | none => cases mediana_mb <;> rfl
  | some valor =>
    cases mediana_mb with
    | none => rfl
    | some med =>
      by_cases hmed : med ≤ 0
      · simp [hmed, pure, Except.pure]
      · have hmed' : med ≠ 0 := fun h0 => hmed (le_of_eq h0)
        simp only [hmed, if_false, if_neg hmed, qdivE_ok _ _ hmed', bind, Except.bind]
        cases hd : denominador with
        | none => rfl
        | some den =>
          have hden' : den ≠ 0 := hden den hd
          simp only [qdivE_ok _ _ hden', bind, Except.bind]
          split_ifs <;> rfl

/-- The outlier detector returns normally on every input. -/
theorem marcar_outliersE_ok (videos : List VideoAnaliticaDTO)
    (bucket_resumen : BucketResumenDTO) (umbrales : UmbralesOutliers) :
    marcar_outliersE videos bucket_resumen umbrales =
      .ok (marcar_outliers videos bucket_resumen umbrales) := by
  have hden : ∀ x : ℚ, denominadorDe bucket_resumen = some x → x ≠ 0 := by
    intro x hx
    unfold denominadorDe at hx
    cases hmad : bucket_resumen.mad_mb_min with
    | none => rw [hmad] at hx; cases hx
    | some d =>
      rw [hmad] at hx
      dsimp only at hx
      by_cases hd : 0 < d
      · rw [if_pos hd] at hx
        have hMF : (0 : ℚ) < MAD_FACTOR := by norm_num [MAD_FACTOR]
        have := mul_pos hMF hd
        cases hx
        exact ne_of_gt this
      · rw [if_neg hd] at hx
        cases hx
  by_cases hne : videos = []
  · simp [marcar_outliersE, marcar_outliers, hne]
  · simp only [marcar_outliersE, marcar_outliers, hne, if_false,
      mapE_ok _ _ videos (fun video _ => procesar_video_outlierE_ok _ _ _ _ _ video hden),
      bind, Except.bind, pure, Except.pure]

/-- **C6** Safety: for every well-typed input — all-null optional fields,
empty bucket lists and single-element buckets included — the metric
calculator, the bucket classifier, the bucket aggregator and the outlier
detector return normally.  The `E`-instrumented variants make every Python
run-time failure source explicit (`ZeroDivisionError`, `IndexError`,
`ValueError` from `min([])` and the `sqrt` domain), and each always returns
`.ok` of the plain result. -/
theorem C6_sin_excepciones :
    (∀ videos : List VideoAnaliticaDTO,
      calcular_metricas_derivadasE videos = .ok (calcular_metricas_derivadas videos)) ∧
    (∀ video : VideoAnaliticaDTO,
      resolver_bucket_resolucionE video = .ok (resolver_bucket_resolucion video)) ∧
    (∀ (bucket_id : String) (videos : List VideoAnaliticaDTO),
      calcular_metricas_bucketE bucket_id videos =
        .ok (calcular_metricas_bucket bucket_id videos)) ∧
    (∀ (videos : List VideoAnaliticaDTO) (bucket_resumen : BucketResumenDTO)
      (umbrales : UmbralesOutliers),
      marcar_outliersE videos bucket_resumen umbrales =
        .ok (marcar_outliers videos bucket_resumen umbrales)) :=
  ⟨calcular_metricas_derivadasE_ok, resolver_bucket_resolucionE_ok,
   calcular_metricas_bucketE_ok, marcar_outliersE_ok⟩

end MetricasVideos
